import Mathlib

/-!
Verification of the media-analysis pipeline of a Telegram bot for
Cloudflare Workers.  The TypeScript sources are shallowly embedded:

* JS strings are Lean `String`s (a list of characters; JS's UTF-16 code
  units only differ on astral characters, which never affect the
  properties proved here);
* JS numbers that the code only ever holds as non-negative integers are
  `Nat`; where the code does fractional arithmetic whose output can
  depend on the rounding of intermediate results (`w / h`,
  `bps / 1000000`), each operation is IEEE-754 binary64: the result is
  the exact rational denoted by the nearest double (`roundDouble`, round
  to nearest, ties to even), and `Number.prototype.toFixed` /
  `Math.round` are modelled by their ECMA-262 definitions (round to
  nearest, ties to the larger value) applied to the exact value of that
  double;
* fallible calls return `Option`/`Except`; a thrown exception is the
  `Except.error`/`none` branch;
* external collaborators (HTTP fetch, the `URL` parser, the WASM engine)
  are universally quantified behaviours fed to the embedded functions.
-/

set_option linter.unusedVariables false

/-! ## JS primitives -/

/-- JS `a || d` for an optional string field: `undefined` and `""` are falsy. -/
def strOr (v : Option String) (d : String) : String :=
  match v with
  | some s => if s = "" then d else s
  | none => d

/-- JS `a ? Number(a) : d` for an optional numeric field: `undefined` and `0` are falsy. -/
def natOr (v : Option Nat) (d : Nat) : Nat :=
  match v with
  | some n => if n = 0 then d else n
  | none => d

/-- Truthiness of an optional numeric field (`if (track.FileSize)`). -/
def natTruthy (v : Option Nat) : Bool :=
  match v with
  | some n => n ≠ 0
  | none => false

/-- Truthiness of an optional string field. -/
def strTruthy (v : Option String) : Bool :=
  match v with
  | some s => s ≠ ""
  | none => false

/-- Does `needle` occur as a contiguous run inside `hay`? -/
def hasSubstrAux (needle : List Char) : List Char → Bool
  | [] => needle.isEmpty
  | c :: cs => needle.isPrefixOf (c :: cs) || hasSubstrAux needle cs

/-- JS `a.includes(b)`. -/
def strIncludes (a b : String) : Bool :=
  hasSubstrAux b.data a.data

/-- `b` occurs as a contiguous substring of `a` (propositional form). -/
def strContains (a b : String) : Prop :=
  ∃ p q, a.data = p ++ b.data ++ q

/-- JS `s.charAt(0).toUpperCase() + s.slice(1)`. -/
def capFirst (s : String) : String :=
  match s.data with
  | [] => ""
  | c :: cs => String.mk (c.toUpper :: cs)

/-- JS `Math.abs` on the exact rational value. -/
def jsAbs (x : ℚ) : ℚ :=
  if x < 0 then -x else x

/-- JS `s.trim()`: whitespace stripped from both ends. -/
def jsTrim (s : String) : String :=
  String.mk (((s.data.dropWhile Char.isWhitespace).reverse.dropWhile Char.isWhitespace).reverse)

/-- JS `s.startsWith(pre)`. -/
def jsStartsWith (s pre : String) : Bool :=
  pre.data.isPrefixOf s.data

/-- JS `s.toLowerCase()` (ASCII, which is all the language table needs). -/
def jsToLower (s : String) : String :=
  String.mk (s.data.map Char.toLower)

/-- JS `s.toUpperCase()` (ASCII, which is all the format matching needs). -/
def jsToUpper (s : String) : String :=
  String.mk (s.data.map Char.toUpper)

/-! ## IEEE-754 binary64 arithmetic

`formatBitrate` divides by `1e6` / `1e3` and `parseMediaInfo` computes
`width / height` on JS numbers, i.e. IEEE-754 binary64 doubles, and the
observable output (a `toFixed(1)` digit, a `Math.round`, a `< 0.1`
tolerance test) can depend on how the quotient was rounded to a double.
`roundDouble` maps a real (rational) value to the exact rational denoted
by the nearest binary64 double (round to nearest, ties to even).
Exponent overflow and subnormals are not modelled: every value rounded in
this development lies well inside the normal range, and integer operands
are taken below `2^53`, where JS holds them exactly. -/

/-- Fuel-driven binary logarithm (structural recursion, so the kernel can
evaluate it); `log2fuel f n = Nat.log2 n` whenever `n ≤ f`. -/
def log2fuel : Nat → Nat → Nat
  | 0, _ => 0
  | f + 1, n => if 2 ≤ n then log2fuel f (n / 2) + 1 else 0

/-- `Nat.log2`, computably: the index of the leading binary digit. -/
def myLog2 (n : Nat) : Nat := log2fuel n n

/-- Round the non-negative fraction `a / b` to the nearest integer, ties
to the even integer — the IEEE-754 significand rounding. -/
def roundHalfEven (a b : Nat) : Nat :=
  let q := a / b
  let r := a % b
  if 2 * r < b then q
  else if b < 2 * r then q + 1
  else if q % 2 = 0 then q else q + 1

/-- The binary exponent of the positive fraction `n / d`: the unique `e`
with `2 ^ e ≤ n / d < 2 ^ (e + 1)`. -/
def binExpNum (n d : Nat) : Int :=
  let ln := myLog2 n
  let ld := myLog2 d
  let e0 : Int := (ln : Int) - (ld : Int)
  let ge : Bool :=
    if ld ≤ ln then decide (d * 2 ^ (ln - ld) ≤ n)
    else decide (d ≤ n * 2 ^ (ld - ln))
  if ge then e0 else e0 - 1

/-- The binary64 double nearest the positive fraction `n / d` (round to
nearest, ties to even), as an exact rational: the significand is scaled
into `[2^52, 2^53]` and rounded half-to-even. -/
def roundDoublePos (n d : Nat) : ℚ :=
  let e : Int := binExpNum n d
  if 0 ≤ 52 - e then
    (roundHalfEven (n * 2 ^ (52 - e).toNat) d : ℚ) / ((2 ^ (52 - e).toNat : Nat) : ℚ)
  else
    (roundHalfEven n (d * 2 ^ (e - 52).toNat) : ℚ) * ((2 ^ (e - 52).toNat : Nat) : ℚ)

/-- The binary64 double nearest a real (rational) value. -/
def roundDouble (q : ℚ) : ℚ :=
  if q = 0 then 0
  else if 0 < q then roundDoublePos q.num.toNat q.den
  else -(roundDoublePos (-q).num.toNat (-q).den)

/-- `⌊x⌋` of a non-negative rational, computably. -/
def ratFloorNat (x : ℚ) : Nat := x.num.toNat / x.den

/-- IEEE division of two exactly-represented values (each JS `/` rounds
its exact result once). -/
def jsDiv (x y : ℚ) : ℚ := roundDouble (x / y)

/-- IEEE subtraction of two doubles (each JS `-` rounds once). -/
def jsSub (x y : ℚ) : ℚ := roundDouble (x - y)

/-- The binary64 double denoted by a decimal literal in the source. -/
def dbl (c : ℚ) : ℚ := roundDouble c

/-- ECMA `Math.round` on the mathematical value of a non-negative double:
nearest integer, ties toward `+∞`. -/
def jsMathRound (x : ℚ) : Nat := ratFloorNat (x + 1/2)

/-- The integer `n` of ECMA `toFixed(1)`: `n / 10` is nearest `x`, ties to
the larger `n` (for non-negative `x`). -/
def toFixed1Int (x : ℚ) : Nat := ratFloorNat (10 * x + 1/2)

/-- ECMA `(x).toFixed(1)` for a non-negative double below `10^21`. -/
def toFixed1 (x : ℚ) : String :=
  toString (toFixed1Int x / 10) ++ "." ++ toString (toFixed1Int x % 10)

/-! ## `formatBitrate` (mediainfo-image.ts)

    function formatBitrate(bps) {
      if (bps >= 1000000) return `${(bps / 1000000).toFixed(1)} Mb/s`;
      else if (bps >= 1000) return `${Math.round(bps / 1000)} kb/s`;
      return `${bps} b/s`;
    }

`bps / 1000000` and `bps / 1000` are IEEE divisions; `toFixed(1)` and
`Math.round` are the ECMA-262 operations (round to nearest, ties to the
larger value) applied to the exact value of the resulting double. -/
def formatBitrate (bps : Nat) : String :=
  if 1000000 ≤ bps then toFixed1 (jsDiv (bps : ℚ) 1000000) ++ " Mb/s"
  else if 1000 ≤ bps then toString (jsMathRound (jsDiv (bps : ℚ) 1000)) ++ " kb/s"
  else toString bps ++ " b/s"

/-! ## Aspect ratio (mediainfo-image.ts, `parseMediaInfo`, Video case) -/

/-- The aspect-ratio computation of `parseMediaInfo` for a video track with
truthy `Width` and `Height` (positive `w`, `h`): the ratio `width / height`
is the rounded double quotient, each `- c` is a rounded double subtraction
against the double denoted by the literal `c`, and the comparison against
the double `0.1` is exact, as in the engine. -/
def aspectRatioOf (w h : Nat) : String :=
  let d := Nat.gcd w h
  let rw := w / d
  let rh := h / d
  if (rw = 16 ∧ rh = 9) ∨ (rw = 64 ∧ rh = 36) then "16:9"
  else if (rw = 4 ∧ rh = 3) ∨ (rw = 16 ∧ rh = 12) then "4:3"
  else if rw = 21 ∧ rh = 9 then "21:9"
  else if jsAbs (jsSub (jsDiv (w : ℚ) h) (dbl 2.35)) < dbl 0.1 then "2.35:1"
  else if jsAbs (jsSub (jsDiv (w : ℚ) h) (dbl 2.39)) < dbl 0.1 then "2.39:1"
  else if jsAbs (jsSub (jsDiv (w : ℚ) h) (dbl 1.85)) < dbl 0.1 then "1.85:1"
  else if jsAbs (jsSub (jsDiv (w : ℚ) h) (dbl 1.78)) < dbl 0.1 then "16:9"
  else toString rw ++ ":" ++ toString rh

/-- The spec's reference description of the aspect-ratio rule, written
from its own words: reduce by GCD, match the canonical ratios in order,
then the tolerance buckets on the raw ratio, else the literal reduced
fraction.  The raw ratio and the tolerance tests are the ones the program
computes, i.e. binary64 double arithmetic. -/
def canonicalRatioName (rw rh : Nat) : Option String :=
  if (rw = 16 ∧ rh = 9) ∨ (rw = 64 ∧ rh = 36) then some "16:9"
  else if (rw = 4 ∧ rh = 3) ∨ (rw = 16 ∧ rh = 12) then some "4:3"
  else if rw = 21 ∧ rh = 9 then some "21:9"
  else none

/-- Tolerance buckets of the spec, in the spec's order, on the double
ratio `x`. -/
def bucketRatioName (x : ℚ) : Option String :=
  if jsAbs (jsSub x (dbl 2.35)) < dbl 0.1 then some "2.35:1"
  else if jsAbs (jsSub x (dbl 2.39)) < dbl 0.1 then some "2.39:1"
  else if jsAbs (jsSub x (dbl 1.85)) < dbl 0.1 then some "1.85:1"
  else if jsAbs (jsSub x (dbl 1.78)) < dbl 0.1 then some "16:9"
  else none

/-- Reference aspect ratio assembled per the spec's sentence. -/
def specAspectRatio (w h : Nat) : String :=
  let d := Nat.gcd w h
  match canonicalRatioName (w / d) (h / d) with
  | some s => s
  | none =>
    match bucketRatioName (jsDiv (w : ℚ) h) with
    | some s => s
    | none => toString (w / d) ++ ":" ++ toString (h / d)

/-! ## The result normalizer (mediainfo-image.ts, `parseMediaInfo`)

Raw engine tracks carry optional fields; the numeric ones (`FileSize`,
`Duration`, `Width`, …) are held by the engine as non-negative integers
and modelled as `Option Nat`, string fields as `Option String`, and the
`Default` flag, which the code compares against both the string `"Yes"`
and the boolean `true`, as `Option (String ⊕ Bool)`. -/

/-- One raw engine track (`MediaInfoTrack`); `type` is the `'@type'` field. -/
structure RawTrack where
  type : String
  Format : Option String := none
  Codec : Option String := none
  CodecID : Option String := none
  FileSize : Option Nat := none
  Duration : Option Nat := none
  OverallBitRate : Option Nat := none
  Width : Option Nat := none
  Height : Option Nat := none
  FrameRate : Option Nat := none
  FrameCount : Option Nat := none
  BitRate : Option Nat := none
  BitDepth : Option Nat := none
  Channels : Option Nat := none
  Language : Option String := none
  Title : Option String := none
  Format_Profile : Option String := none
  Format_Commercial_IfAny : Option String := none
  Default : Option (String ⊕ Bool) := none
deriving DecidableEq

/-- The raw engine output (`MediaInfoResult`): `media?.track`, `none` when
the `media` object or its `track` list is missing. -/
structure MediaInfoResult where
  media : Option (List RawTrack)
deriving DecidableEq

structure GeneralInfo where
  container : String
  size : String
  runtime : String
  bitrate : String
deriving DecidableEq

structure VideoInfo where
  codec : String
  resolution : String
  aspectRatio : String
  frameRate : String
  frameCount : String
  bitrate : String
  bitDepth : String
deriving DecidableEq

structure AudioInfo where
  index : Nat
  language : String
  flag : String
  codec : String
  channels : String
  bitrate : String
  title : Option String
  isDefault : Bool
deriving DecidableEq

structure SubtitleInfo where
  index : Nat
  format : String
  language : String
  flag : String
  title : Option String
deriving DecidableEq

structure ParsedMediaInfo where
  filename : String
  general : GeneralInfo
  video : Option VideoInfo
  audio : List AudioInfo
  subtitles : List SubtitleInfo
deriving DecidableEq

/-- The `LANG_FLAGS` table of mediainfo-image.ts. -/
def langFlags : List (String × String) := [
  ("en", "🇺🇸"), ("eng", "🇺🇸"), ("english", "🇺🇸"),
  ("es", "🇪🇸"), ("spa", "🇪🇸"), ("spanish", "🇪🇸"),
  ("fr", "🇫🇷"), ("fre", "🇫🇷"), ("fra", "🇫🇷"), ("french", "🇫🇷"),
  ("de", "🇩🇪"), ("ger", "🇩🇪"), ("deu", "🇩🇪"), ("german", "🇩🇪"),
  ("it", "🇮🇹"), ("ita", "🇮🇹"), ("italian", "🇮🇹"),
  ("pt", "🇵🇹"), ("por", "🇵🇹"), ("portuguese", "🇵🇹"),
  ("ru", "🇷🇺"), ("rus", "🇷🇺"), ("russian", "🇷🇺"),
  ("ja", "🇯🇵"), ("jpn", "🇯🇵"), ("japanese", "🇯🇵"),
  ("ko", "🇰🇷"), ("kor", "🇰🇷"), ("korean", "🇰🇷"),
  ("zh", "🇨🇳"), ("chi", "🇨🇳"), ("zho", "🇨🇳"), ("chinese", "🇨🇳"),
  ("ar", "🇸🇦"), ("ara", "🇸🇦"), ("arabic", "🇸🇦"),
  ("hi", "🇮🇳"), ("hin", "🇮🇳"), ("hindi", "🇮🇳"),
  ("nl", "🇳🇱"), ("dut", "🇳🇱"), ("nld", "🇳🇱"), ("dutch", "🇳🇱"),
  ("pl", "🇵🇱"), ("pol", "🇵🇱"), ("polish", "🇵🇱"),
  ("tr", "🇹🇷"), ("tur", "🇹🇷"), ("turkish", "🇹🇷"),
  ("th", "🇹🇭"), ("tha", "🇹🇭"), ("thai", "🇹🇭"),
  ("vi", "🇻🇳"), ("vie", "🇻🇳"), ("vietnamese", "🇻🇳"),
  ("sv", "🇸🇪"), ("swe", "🇸🇪"), ("swedish", "🇸🇪"),
  ("da", "🇩🇰"), ("dan", "🇩🇰"), ("danish", "🇩🇰"),
  ("no", "🇳🇴"), ("nor", "🇳🇴"), ("norwegian", "🇳🇴"),
  ("fi", "🇫🇮"), ("fin", "🇫🇮"), ("finnish", "🇫🇮"),
  ("el", "🇬🇷"), ("gre", "🇬🇷"), ("ell", "🇬🇷"), ("greek", "🇬🇷"),
  ("he", "🇮🇱"), ("heb", "🇮🇱"), ("hebrew", "🇮🇱"),
  ("cs", "🇨🇿"), ("cze", "🇨🇿"), ("ces", "🇨🇿"), ("czech", "🇨🇿"),
  ("hu", "🇭🇺"), ("hun", "🇭🇺"), ("hungarian", "🇭🇺"),
  ("ro", "🇷🇴"), ("rum", "🇷🇴"), ("ron", "🇷🇴"), ("romanian", "🇷🇴"),
  ("bg", "🇧🇬"), ("bul", "🇧🇬"), ("bulgarian", "🇧🇬"),
  ("uk", "🇺🇦"), ("ukr", "🇺🇦"), ("ukrainian", "🇺🇦"),
  ("sk", "🇸🇰"), ("slo", "🇸🇰"), ("slk", "🇸🇰"), ("slovak", "🇸🇰"),
  ("sl", "🇸🇮"), ("slv", "🇸🇮"), ("slovenian", "🇸🇮"),
  ("hr", "🇭🇷"), ("hrv", "🇭🇷"), ("croatian", "🇭🇷"),
  ("sr", "🇷🇸"), ("srp", "🇷🇸"), ("serbian", "🇷🇸"),
  ("id", "🇮🇩"), ("ind", "🇮🇩"), ("indonesian", "🇮🇩"),
  ("ms", "🇲🇾"), ("may", "🇲🇾"), ("msa", "🇲🇾"), ("malay", "🇲🇾"),
  ("et", "🇪🇪"), ("est", "🇪🇪"), ("estonian", "🇪🇪"),
  ("lv", "🇱🇻"), ("lav", "🇱🇻"), ("latvian", "🇱🇻"),
  ("lt", "🇱🇹"), ("lit", "🇱🇹"), ("lithuanian", "🇱🇹")]

/-- `getLanguageFlag`: falsy input or an unmapped code yields the neutral glyph. -/
def getLanguageFlag (lang : String) : String :=
  if lang = "" then "🏳️"
  else
    match langFlags.lookup (jsTrim (jsToLower lang)) with
    | some f => f
    | none => "🏳️"

/-- Two-digit decimal tail of `toFixed(2)`. -/
def pad2 (k : Nat) : String :=
  if k < 10 then "0" ++ toString k else toString k

/-- `formatFileSize` of mediainfo-image.ts: unit index is
`floor (log bytes / log 1024)` (exact for a positive integer), then the
value in that unit to two decimal places (ECMA `toFixed(2)`, modelled on
the exact rational). -/
def formatFileSize (bytes : Nat) : String :=
  if bytes = 0 then "0 B"
  else
    let units := ["B", "KiB", "MiB", "GiB", "TiB"]
    let i := Nat.log 1024 bytes
    let n := ⌊(bytes : ℚ) / (1024 : ℚ) ^ i * 100 + 1/2⌋₊
    toString (n / 100) ++ "." ++ pad2 (n % 100) ++ " " ++ units.getD i "undefined"

/-- `formatDuration` of mediainfo-image.ts (argument in milliseconds). -/
def formatDuration (ms : Nat) : String :=
  let totalSeconds := ms / 1000
  let hours := totalSeconds / 3600
  let minutes := totalSeconds % 3600 / 60
  let seconds := totalSeconds % 60
  if 0 < hours then toString hours ++ " h " ++ toString minutes ++ " min"
  else toString minutes ++ " min " ++ toString seconds ++ " sec"

/-- The `General` case of `parseMediaInfo`'s switch: `container` is always
overwritten, the other three fields only when the raw field is truthy. -/
def parseGeneral (g : GeneralInfo) (t : RawTrack) : GeneralInfo :=
  { container := strOr t.Format "Unknown"
    size := if natTruthy t.FileSize then formatFileSize (t.FileSize.getD 0) else g.size
    runtime := if natTruthy t.Duration then formatDuration (t.Duration.getD 0) else g.runtime
    bitrate := if natTruthy t.OverallBitRate then formatBitrate (t.OverallBitRate.getD 0) else g.bitrate }

/-- The `Video` case of `parseMediaInfo`'s switch. -/
def parseVideo (t : RawTrack) : VideoInfo :=
  let width := natOr t.Width 0
  let height := natOr t.Height 0
  { codec := strOr t.Format (strOr t.Codec "Unknown")
    resolution := if width ≠ 0 ∧ height ≠ 0 then toString width ++ "x" ++ toString height else "Unknown"
    aspectRatio := if width ≠ 0 ∧ height ≠ 0 then aspectRatioOf width height else "Unknown"
    frameRate := if natTruthy t.FrameRate then toString (t.FrameRate.getD 0) else "Unknown"
    frameCount := if natTruthy t.FrameCount then toString (t.FrameCount.getD 0) else "Unknown"
    bitrate := if natTruthy t.BitRate then formatBitrate (t.BitRate.getD 0) else "Unknown"
    bitDepth := if natTruthy t.BitDepth then toString (t.BitDepth.getD 0) ++ " bits" else "8 bits" }

/-- Channel-count display of the `Audio` case. -/
def audioChannelsStr (channels : Nat) : String :=
  if channels = 1 then "1ch"
  else if channels = 2 then "2ch"
  else if channels = 6 then "6ch"
  else if channels = 8 then "8ch"
  else toString channels ++ "ch"

/-- Does the `Format_Commercial_IfAny` field mention Atmos
(`commercialName?.includes('Atmos')`)? -/
def mentionsAtmos (t : RawTrack) : Bool :=
  match t.Format_Commercial_IfAny with
  | some c => strIncludes c "Atmos"
  | none => false

/-- Codec label of the `Audio` case, with the profile heuristics; note the
whole upgrade is gated on `if (formatProfile)` being truthy. -/
def audioCodecOf (t : RawTrack) : String :=
  let base := strOr t.Format "Unknown"
  if strTruthy t.Format_Profile then
    if base = "MLP FBA" ∨ strIncludes base "TrueHD" then
      if mentionsAtmos t then "MLP FBA" ++ " (Dolby Atmos)" else "MLP FBA"
    else if base = "DTS" ∧ strIncludes (t.Format_Profile.getD "") "MA" then "DTS-HD MA"
    else base
  else base

/-- The `Audio` case of `parseMediaInfo`'s switch. -/
def parseAudio (t : RawTrack) (idx : Nat) : AudioInfo :=
  let lang := strOr t.Language "und"
  { index := idx
    language := capFirst lang
    flag := getLanguageFlag lang
    codec := audioCodecOf t
    channels := audioChannelsStr (natOr t.Channels 2)
    bitrate := if natTruthy t.BitRate then formatBitrate (t.BitRate.getD 0) else "Variable"
    title := if strTruthy t.Title then t.Title else none
    isDefault :=
      match t.Default with
      | some (.inl s) => s = "Yes"
      | some (.inr b) => b
      | none => false }

/-- Subtitle format normalization of the `Text` case. -/
def subFormatOf (t : RawTrack) : String :=
  let subFormat := strOr t.Format (strOr t.CodecID "Unknown")
  if strIncludes (jsToUpper subFormat) "UTF-8" then "UTF-8"
  else if strIncludes (jsToUpper subFormat) "ASS" then "ASS"
  else if strIncludes (jsToUpper subFormat) "SRT" then "SRT"
  else if strIncludes (jsToUpper subFormat) "PGS" then "PGS"
  else if strIncludes (jsToUpper subFormat) "VOBSUB" then "VobSub"
  else subFormat

/-- The `Text` case of `parseMediaInfo`'s switch. -/
def parseText (t : RawTrack) (idx : Nat) : SubtitleInfo :=
  let subLang := strOr t.Language "und"
  { index := idx
    format := subFormatOf t
    language := capFirst subLang
    flag := getLanguageFlag subLang
    title := if strTruthy t.Title then t.Title else none }

/-- The initial `parsed` value of `parseMediaInfo`. -/
def emptyParsed (filename : String) : ParsedMediaInfo :=
  { filename
    general := { container := "Unknown", size := "Unknown", runtime := "Unknown", bitrate := "Unknown" }
    video := none
    audio := []
    subtitles := [] }

/-- The `for (const track of result.media.track)` loop, with the two
sequential index counters. -/
def processTracks (p : ParsedMediaInfo) (aIdx sIdx : Nat) : List RawTrack → ParsedMediaInfo
  | [] => p
  | t :: ts =>
    if t.type = "General" then processTracks { p with general := parseGeneral p.general t } aIdx sIdx ts
    else if t.type = "Video" then processTracks { p with video := some (parseVideo t) } aIdx sIdx ts
    else if t.type = "Audio" then
      processTracks { p with audio := p.audio ++ [parseAudio t aIdx] } (aIdx + 1) sIdx ts
    else if t.type = "Text" then
      processTracks { p with subtitles := p.subtitles ++ [parseText t sIdx] } aIdx (sIdx + 1) ts
    else processTracks p aIdx sIdx ts

/-- `parseMediaInfo` of mediainfo-image.ts: a total function of the raw
result (the guarantee that it never throws is its totality here). -/
def parseMediaInfo (result : MediaInfoResult) (filename : String) : ParsedMediaInfo :=
  match result.media with
  | none => emptyParsed filename
  | some tracks => processTracks (emptyParsed filename) 0 0 tracks

/-! ## The analysis engine adapter (mediainfo.ts, `analyzeMediaBuffer`)

The WASM engine itself is opaque; its two `analyzeData` passes are the
behaviour's `Except` outcomes and `inform()` its text.  The adapter's
try/finally is the `tryFinallyTrace` combinator; the event trace records
each engine operation the adapter performs, in order. -/
inductive EngineEv where
  | analyzeObj
  | reset
  | analyzeText
  | inform
  | close
deriving DecidableEq, BEq

/-- `try { body } finally { fin }`: the finaliser's events always run, after
the body's, whatever the body's outcome. -/
def tryFinallyTrace {α : Type} (body : Except String α × List EngineEv)
    (fin : List EngineEv) : Except String α × List EngineEv :=
  (body.1, body.2 ++ fin)

structure EngineBehavior where
  objectPass : Except String MediaInfoResult
  textPass : Except String Unit
  informText : String

structure MediaInfoAnalysis where
  result : MediaInfoResult
  text : String
deriving DecidableEq

/-- The `readChunk` callback of `analyzeMediaBuffer`:
`subarray(offset, min (offset + chunkSize) length)`, empty past the end. -/
def readChunk (fileBuffer : List UInt8) (chunkSize offset : Nat) : List UInt8 :=
  if fileBuffer.length ≤ offset then []
  else (fileBuffer.drop offset).take (min chunkSize (fileBuffer.length - offset))

/-- `analyzeMediaBuffer`: object pass, then `reset()` and the text pass,
`inform()` for the transcript, with `close()` in the `finally` block.
Timing diagnostics are not modelled. -/
def analyzeMediaBuffer (fileBuffer : List UInt8) (fileSize : Nat) (filename : String)
    (engine : EngineBehavior) : Except String MediaInfoAnalysis × List EngineEv :=
  tryFinallyTrace
    (match engine.objectPass with
     | .error e => (.error e, [.analyzeObj])
     | .ok r =>
       match engine.textPass with
       | .error e => (.error e, [.analyzeObj, .reset, .analyzeText])
       | .ok _ => (.ok ⟨r, engine.informText⟩, [.analyzeObj, .reset, .analyzeText, .inform]))
    [.close]

/-! ## The partial downloader

`downloadFromUrl` (mediainfo.ts) and `GoogleDriveClient.downloadFileContent`
(google-drive.ts).  The HTTP collaborator is a behaviour: the HEAD outcome,
and the GET outcome as a function of whether the `Range: bytes=0-(max-1)`
header was sent.  Header values are modelled already parsed
(`Content-Length` / the total after `/` in `Content-Range` as `Option Nat`);
a thrown `fetch` is the `none` outcome. -/

/-- One HTTP response as the downloaders observe it. -/
structure GetResp where
  ok : Bool
  status : Nat
  contentLength : Option Nat := none
  contentRangeTotal : Option Nat := none
  body : List UInt8 := []
deriving DecidableEq

structure HeadResp where
  ok : Bool
  contentLength : Option Nat := none
deriving DecidableEq

/-- Collaborator behaviour for a direct-URL download.  `filename` stands for
`extractFilenameFromUrl(url, response.headers)`, a pure function of
collaborator-controlled data (headers and URL) that no claim constrains. -/
structure UrlBehavior where
  head : Option HeadResp
  get : Bool → Option GetResp
  filename : String

structure DownloadResult where
  buffer : List UInt8
  fileSize : Nat
  filename : String
deriving DecidableEq

/-- The size learned by the best-effort HEAD request: 0 when the request
threw, was not ok, or carried no `Content-Length`. -/
def headSize (b : UrlBehavior) : Nat :=
  match b.head with
  | none => 0
  | some h =>
    if h.ok then
      match h.contentLength with
      | some n => n
      | none => 0
    else 0

/-- Whether `downloadFromUrl` sends a `Range` header: only when the size
learned by HEAD exceeds `maxBytes`. -/
def urlRangeRequested (b : UrlBehavior) (maxBytes : Nat) : Bool :=
  maxBytes < headSize b

/-- `downloadFromUrl(url, maxBytes)`: HEAD for the size (failures ignored),
GET with a `Range` header only when that size exceeds the cap, final size
from `Content-Range` total, else `Content-Length`, else the body length.
The buffer is the response body verbatim. -/
def downloadFromUrl (b : UrlBehavior) (maxBytes : Nat) : Option DownloadResult :=
  let fileSize0 := headSize b
  match b.get (urlRangeRequested b maxBytes) with
  | none => none
  | some r =>
    if r.ok = false ∧ r.status ≠ 206 then none
    else
      let fileSize1 :=
        if fileSize0 = 0 then
          match r.contentRangeTotal with
          | some t => t
          | none =>
            match r.contentLength with
            | some n => n
            | none => 0
        else fileSize0
      some
        { buffer := r.body
          fileSize := if fileSize1 = 0 then r.body.length else fileSize1
          filename := b.filename }

/-- Collaborator behaviour for a Drive download: the metadata call
(`none` = `null`, and a token-fetch failure aborts before any download),
then the content GET as a function of whether `Range` was sent. -/
structure DriveBehavior where
  metadataSize : Option (Option Nat)
  get : Bool → Option GetResp

/-- Whether `downloadFileContent` sends a `Range` header. -/
def driveRangeRequested (b : DriveBehavior) (maxBytes : Nat) : Bool :=
  match b.metadataSize with
  | some (some n) => maxBytes < n
  | _ => false

/-- `GoogleDriveClient.downloadFileContent(fileId, maxBytes)`: metadata
first (`null` → `null`), fail on size 0, GET with `Range` only when the
metadata size exceeds the cap; the buffer is the response body verbatim. -/
def downloadFileContent (b : DriveBehavior) (maxBytes : Nat) :
    Option (List UInt8 × Nat) :=
  match b.metadataSize with
  | none => none
  | some sz =>
    let fileSize := sz.getD 0
    if fileSize = 0 then none
    else
      match b.get (driveRangeRequested b maxBytes) with
      | none => none
      | some r =>
        if r.ok = false ∧ r.status ≠ 206 then none
        else some (r.body, fileSize)

/-! ## The source resolver (mediainfo.ts `isDirectUrl`, helpers.ts `extractFileId`) -/

/-- The outcome of the web-platform `new URL(input)` primitive: `none` when
parsing throws, else the parsed protocol (with trailing colon) and
hostname.  The parser itself is a platform collaborator, not repository
code, so the resolver is quantified over its outcome. -/
structure JsUrl where
  protocol : String
  hostname : String
deriving DecidableEq

/-- The configured cloud-storage host test of `isDirectUrl`. -/
def isDriveHost (hostname : String) : Bool :=
  strIncludes hostname "drive.google.com" ||
    strIncludes hostname "docs.google.com" ||
    hostname = "drive.usercontent.google.com"

/-- `isDirectUrl(input)`, applied to the URL-parse outcome of the input. -/
def isDirectUrl (parsed : Option JsUrl) : Bool :=
  match parsed with
  | none => false
  | some u =>
    if u.protocol ≠ "http:" ∧ u.protocol ≠ "https:" then false
    else if isDriveHost u.hostname then false
    else true

/-- A character of the class `[a-zA-Z0-9_-]`. -/
def isIdChar (c : Char) : Bool :=
  c.isAlphanum || c = '_' || c = '-'

/-- `/^[a-zA-Z0-9_-]{25,}$/.test(link.trim())`. -/
def bareIdTest (link : String) : Bool :=
  25 ≤ (jsTrim link).length && (jsTrim link).data.all isIdChar

/-- Does the literal `lit` start `l`?  If so, the rest of `l`. -/
def stripLit : List Char → List Char → Option (List Char)
  | [], l => some l
  | _, [] => none
  | p :: ps, c :: cs => if p = c then stripLit ps cs else none

/-- Leftmost match of the regex `lit([a-zA-Z0-9_-]+)`: at each position try
the literal and then a non-empty run of id characters; the first position
where both succeed yields the (greedy) captured run. -/
def scanCapture (lit : List Char) : List Char → Option (List Char)
  | [] => none
  | c :: cs =>
    match stripLit lit (c :: cs) with
    | some rest =>
      let run := rest.takeWhile isIdChar
      if run.isEmpty then scanCapture lit cs else some run
    | none => scanCapture lit cs

/-- `link.match(pattern)?.[1]` for one of the fixed patterns. -/
def matchCapture (lit : String) (link : String) : Option String :=
  (scanCapture lit.data link.data).map String.mk

/-- The fixed pattern list of `extractFileId`, in source order (each regex is
a literal followed by the captured id-character run). -/
def driveIdPatterns : List String :=
  ["/file/d/", "/open?id=", "/uc?id=", "id=", "/folders/", "/d/"]

/-- `extractFileId(link)`: the bare-id fast path, then the pattern list in
order, first match wins, `null` when nothing matches. -/
def extractFileId (link : String) : Option String :=
  if bareIdTest link then some (jsTrim link)
  else driveIdPatterns.findSome? fun p => matchCapture p link

/-! ## The paste-provider fallback chain (pastebin.ts) -/
structure PasteResult where
  success : Bool
  url : Option String := none
  error : Option String := none
deriving DecidableEq

/-- A text-body HTTP response as the three plain-text providers observe it. -/
structure TextResp where
  ok : Bool
  status : Nat
  body : String
deriving DecidableEq

/-- A JSON response as the hastebin provider observes it: `key` is the
parse outcome (`.error` = `response.json()` threw) with the optional
`key` field. -/
structure JsonResp where
  ok : Bool
  status : Nat
  key : Except String (Option String)

/-- A failure `PasteResult` carrying the caught error's message. -/
def pasteFail (e : String) : PasteResult :=
  { success := false, error := some e }

/-- `uploadToPasteRs(content)` as a function of its fetch outcome. -/
def uploadToPasteRs (o : Except String TextResp) : PasteResult :=
  match o with
  | .error e => pasteFail e
  | .ok r =>
    if r.ok = false then pasteFail ("paste.rs returned " ++ toString r.status)
    else
      let url := jsTrim r.body
      if url ≠ "" ∧ jsStartsWith url "https://paste.rs/" then { success := true, url := some url }
      else pasteFail "Invalid response from paste.rs"

/-- `uploadToDpaste(content, title, expiryDays)` as a function of its fetch
outcome (the request parameters do not influence the result shape). -/
def uploadToDpaste (o : Except String TextResp) : PasteResult :=
  match o with
  | .error e => pasteFail e
  | .ok r =>
    if r.ok = false then pasteFail ("dpaste.org returned " ++ toString r.status)
    else
      let url := jsTrim r.body
      if url ≠ "" ∧ jsStartsWith url "https://dpaste.org/" then { success := true, url := some url }
      else pasteFail "Invalid response from dpaste.org"

/-- `uploadTo0x0(content)` as a function of its fetch outcome. -/
def uploadTo0x0 (o : Except String TextResp) : PasteResult :=
  match o with
  | .error e => pasteFail e
  | .ok r =>
    if r.ok = false then pasteFail ("0x0.st returned " ++ toString r.status)
    else
      let url := jsTrim r.body
      if url ≠ "" ∧ jsStartsWith url "https://0x0.st/" then { success := true, url := some url }
      else pasteFail "Invalid response from 0x0.st"

/-- `uploadToHastebin(content)` as a function of its fetch outcome;
`data.key` must be present and truthy. -/
def uploadToHastebin (o : Except String JsonResp) : PasteResult :=
  match o with
  | .error e => pasteFail e
  | .ok r =>
    if r.ok = false then pasteFail ("hastebin returned " ++ toString r.status)
    else
      match r.key with
      | .error e => pasteFail e
      | .ok (some key) =>
        if key ≠ "" then { success := true, url := some ("https://hastebin.com/" ++ key) }
        else pasteFail "Invalid response from hastebin"
      | .ok none => pasteFail "Invalid response from hastebin"

/-- One fetch outcome per provider; a provider's outcome is only consulted
if the chain reaches it. -/
structure PasteEnv where
  pasteRs : Except String TextResp
  dpaste : Except String TextResp
  zeroXZero : Except String TextResp
  hastebin : Except String JsonResp

/-- JS `` `${r.error}` `` for the recorded sub-message. -/
def jsErrStr (r : PasteResult) : String :=
  r.error.getD "undefined"

/-- `uploadToPastebin(content, title, expiryDays)`: the four providers in
source order, stopping at the first success, aggregating the error
messages otherwise. -/
def uploadToPastebin (env : PasteEnv) : PasteResult :=
  let r1 := uploadToPasteRs env.pasteRs
  if r1.success then r1
  else
    let e1 := "paste.rs: " ++ jsErrStr r1
    let r2 := uploadToDpaste env.dpaste
    if r2.success then r2
    else
      let e2 := "dpaste.org: " ++ jsErrStr r2
      let r3 := uploadTo0x0 env.zeroXZero
      if r3.success then r3
      else
        let e3 := "0x0.st: " ++ jsErrStr r3
        let r4 := uploadToHastebin env.hastebin
        if r4.success then r4
        else
          let e4 := "hastebin: " ++ jsErrStr r4
          { success := false
            error := some ("All paste services failed: " ++ String.intercalate "; " [e1, e2, e3, e4]) }

/-- The providers whose `fetch` the chain actually performs, in order: the
control flow of `uploadToPastebin` made explicit. -/
def attemptedProviders (env : PasteEnv) : List String :=
  "paste.rs" ::
    (if (uploadToPasteRs env.pasteRs).success then []
     else "dpaste.org" ::
       (if (uploadToDpaste env.dpaste).success then []
        else "0x0.st" ::
          (if (uploadTo0x0 env.zeroXZero).success then []
           else ["hastebin"])))

/-! ## Fallback-message truncation (mediainfo.ts, `mediainfoCommand`)

The styled-text delivery path: `response` is the header + styled report
(`body` here, universally quantified) plus the full-report link part; when
it exceeds 4000 characters it is cut to `3900 - linkPart.length`
characters (clamped at zero, as JS `substring`) and the truncation marker
and the intact link part are appended. -/

/-- `'\n\n📋 <b>Full Report:</b> ' + url` when the paste upload succeeded,
else the empty string. -/
def linkPartOf (pasteUrl : Option String) : String :=
  match pasteUrl with
  | some url => "\n\n📋 <b>Full Report:</b> " ++ url
  | none => ""

/-- The message text the fallback path hands to `sendMessage`. -/
def fallbackMessage (body : String) (pasteUrl : Option String) : String :=
  let response := body ++ linkPartOf pasteUrl
  if 4000 < response.length then
    String.mk (response.data.take (3900 - (linkPartOf pasteUrl).length)) ++
      "\n\n<i>[Output truncated]</i>" ++ linkPartOf pasteUrl
  else response

/-- A 1920×800 video raw track (only width/height present). -/
def videoTrack1920x800 : RawTrack :=
  { type := "Video", Width := some 1920, Height := some 800 }

/-- A 1920×1080 video raw track. -/
def videoTrack1920x1080 : RawTrack :=
  { type := "Video", Width := some 1920, Height := some 1080 }

/-- An audio raw track with a TrueHD base format, an Atmos commercial name,
and no format-profile field. -/
def trueHdNoProfileTrack : RawTrack :=
  { type := "Audio", Format := some "TrueHD", Format_Commercial_IfAny := some "Dolby Atmos" }

/-- An audio raw track with a TrueHD-family base format, a profile and an
Atmos commercial name. -/
def mlpAtmosTrack : RawTrack :=
  { type := "Audio", Format := some "MLP FBA", Format_Profile := some "MLP FBA",
    Format_Commercial_IfAny := some "Dolby TrueHD with Dolby Atmos" }

/-- `MAX_DOWNLOAD_SIZE` of mediainfo.ts (10 MiB). -/
@[reducible] def MAX_DOWNLOAD_SIZE : Nat := 10 * 1024 * 1024

/-- A direct-URL collaborator whose HEAD throws and whose plain GET answers
200 with the given body. -/
def plainGetBehavior (body : List UInt8) : UrlBehavior :=
  { head := none
    get := fun _ => some { ok := true, status := 200, body := body }
    filename := "big.bin" }

/-- A response body one byte longer than the cap. -/
def oversizeBody : List UInt8 := List.replicate 10485761 0

/-- A Drive collaborator with a 5-byte file and an honest empty-body GET. -/
def smallDriveBehavior : DriveBehavior :=
  { metadataSize := some (some 5)
    get := fun _ => some { ok := true, status := 200 } }

/-- A link 4046 characters long (so the whole link part is 4070). -/
def hugeLink : String := String.mk (List.replicate 4046 'a')

/-- paste.rs success shape: HTTP ok and a trimmed body that is a
`https://paste.rs/` URL. -/
def pasteRsShape (o : Except String TextResp) : Prop :=
  ∃ r, o = .ok r ∧ r.ok = true ∧ jsTrim r.body ≠ "" ∧
    jsStartsWith (jsTrim r.body) "https://paste.rs/" = true

/-- dpaste.org success shape. -/
def dpasteShape (o : Except String TextResp) : Prop :=
  ∃ r, o = .ok r ∧ r.ok = true ∧ jsTrim r.body ≠ "" ∧
    jsStartsWith (jsTrim r.body) "https://dpaste.org/" = true

/-- 0x0.st success shape. -/
def zeroXZeroShape (o : Except String TextResp) : Prop :=
  ∃ r, o = .ok r ∧ r.ok = true ∧ jsTrim r.body ≠ "" ∧
    jsStartsWith (jsTrim r.body) "https://0x0.st/" = true

/-- hastebin success shape: HTTP ok, JSON parsed, non-empty `key` field. -/
def hastebinShape (o : Except String JsonResp) : Prop :=
  ∃ r, o = .ok r ∧ r.ok = true ∧ ∃ key, r.key = .ok (some key) ∧ key ≠ ""

/-- The four provider-specific sub-messages recorded by the chain. -/
def pasteSubMsg1 (env : PasteEnv) : String :=
  "paste.rs: " ++ jsErrStr (uploadToPasteRs env.pasteRs)

def pasteSubMsg2 (env : PasteEnv) : String :=
  "dpaste.org: " ++ jsErrStr (uploadToDpaste env.dpaste)

def pasteSubMsg3 (env : PasteEnv) : String :=
  "0x0.st: " ++ jsErrStr (uploadTo0x0 env.zeroXZero)

def pasteSubMsg4 (env : PasteEnv) : String :=
  "hastebin: " ++ jsErrStr (uploadToHastebin env.hastebin)

/-- The aggregated all-failed message. -/
def pasteAggregateError (env : PasteEnv) : String :=
  "All paste services failed: " ++ String.intercalate "; "
    [pasteSubMsg1 env, pasteSubMsg2 env, pasteSubMsg3 env, pasteSubMsg4 env]

/-- The spec's fallback example: providers 1–2 fail, provider 3 succeeds. -/
def chainWitnessEnv : PasteEnv :=
  { pasteRs := .ok { ok := false, status := 500, body := "" }
    dpaste := .error "network down"
    zeroXZero := .ok { ok := true, status := 200, body := "https://0x0.st/abc" }
    hastebin := .ok { ok := true, status := 200, key := .ok (some "k") } }

/-! ## Theorems -/

/-! ### Properties of the binary64 rounding

`log2fuel` agrees with `Nat.log2`; the rounded value of a positive
rational below `2 ^ K` is within `2 ^ (K - 53)` of it; a fraction with a
small power-of-two denominator is returned exactly; and at concrete
inputs `roundDouble` evaluates to an explicit dyadic rational. -/

set_option maxRecDepth 8000

theorem log2fuel_eq (f : Nat) : ∀ n : Nat, n ≤ f → log2fuel f n = Nat.log2 n := by
  induction f with
  | zero =>
    intro n hn
    have h0 : n = 0 := Nat.le_zero.mp hn
    subst h0
    rw [Nat.log2]
    simp [log2fuel]
  | succ f ih =>
    intro n hn
    by_cases h2 : 2 ≤ n
    · have hrec : n / 2 ≤ f := by omega
      rw [Nat.log2]
      simp only [log2fuel, if_pos h2, ih (n / 2) hrec, ge_iff_le, h2, if_true]
    · rw [Nat.log2]
      simp [log2fuel, h2]

theorem myLog2_eq (n : Nat) : myLog2 n = Nat.log2 n := log2fuel_eq n n le_rfl

theorem roundDouble_pos_eq (q : ℚ) (hq : 0 < q) :
    roundDouble q = roundDoublePos q.num.toNat q.den := by
  rw [roundDouble, if_neg (ne_of_gt hq), if_pos hq]

theorem roundDouble_frac (a b : Nat) (ha : 0 < a) (hb : 0 < b)
    (hco : Nat.Coprime a b) : roundDouble ((a : ℚ) / b) = roundDoublePos a b := by
  have hq : (0 : ℚ) < (a : ℚ) / b := by positivity
  have hnum : ((a : ℚ) / b).num = (a : ℤ) := by
    have h := @Rat.num_div_eq_of_coprime (a : ℤ) (b : ℤ)
      (by exact_mod_cast hb) (by simpa using hco)
    simpa using h
  have hden : ((a : ℚ) / b).den = b := by
    have h := @Rat.den_div_eq_of_coprime (a : ℤ) (b : ℤ)
      (by exact_mod_cast hb) (by simpa using hco)
    have h2 : (((a : ℚ) / b).den : ℤ) = (b : ℤ) := by simpa using h
    exact_mod_cast h2
  rw [roundDouble_pos_eq _ hq, hnum, hden, Int.toNat_natCast]

theorem roundDouble_neg_frac (a b : Nat) (ha : 0 < a) (hb : 0 < b)
    (hco : Nat.Coprime a b) :
    roundDouble (-((a : ℚ) / b)) = -(roundDoublePos a b) := by
  have hq : (0 : ℚ) < (a : ℚ) / b := by positivity
  have hne : -((a : ℚ) / b) ≠ 0 := by simpa using ne_of_gt hq
  have hnl : ¬ (0 : ℚ) < -((a : ℚ) / b) := by simpa using le_of_lt hq
  rw [roundDouble, if_neg hne, if_neg hnl, neg_neg]
  have hnum : ((a : ℚ) / b).num = (a : ℤ) := by
    have h := @Rat.num_div_eq_of_coprime (a : ℤ) (b : ℤ)
      (by exact_mod_cast hb) (by simpa using hco)
    simpa using h
  have hden : ((a : ℚ) / b).den = b := by
    have h := @Rat.den_div_eq_of_coprime (a : ℤ) (b : ℤ)
      (by exact_mod_cast hb) (by simpa using hco)
    have h2 : (((a : ℚ) / b).den : ℤ) = (b : ℤ) := by simpa using h
    exact_mod_cast h2
  rw [hnum, hden, Int.toNat_natCast]

-- concrete evaluation experiment: double(39/20) = 1.95's double

theorem roundDouble_eval (a b : Nat) (e : Int) (s m : Nat) (ha : 0 < a) (hb : 0 < b)
    (hco : Nat.Coprime a b) (he : binExpNum a b = e) (h0 : 0 ≤ 52 - e)
    (hs : (52 - e).toNat = s) (hm : roundHalfEven (a * 2 ^ s) b = m) :
    roundDouble ((a : ℚ) / b) = (m : ℚ) / ((2 ^ s : Nat) : ℚ) := by
  rw [roundDouble_frac a b ha hb hco, roundDoublePos, he, if_pos h0, hs, hm]

theorem roundDouble_neg_eval (a b : Nat) (e : Int) (s m : Nat) (ha : 0 < a) (hb : 0 < b)
    (hco : Nat.Coprime a b) (he : binExpNum a b = e) (h0 : 0 ≤ 52 - e)
    (hs : (52 - e).toNat = s) (hm : roundHalfEven (a * 2 ^ s) b = m) :
    roundDouble (-((a : ℚ) / b)) = -((m : ℚ) / ((2 ^ s : Nat) : ℚ)) := by
  rw [roundDouble_neg_frac a b ha hb hco, roundDoublePos, he, if_pos h0, hs, hm]

theorem ratFloorNat_frac (a b : Nat) (hb : 0 < b) (hco : Nat.Coprime a b) :
    ratFloorNat ((a : ℚ) / b) = a / b := by
  have hnum : ((a : ℚ) / b).num = (a : ℤ) := by
    have h := @Rat.num_div_eq_of_coprime (a : ℤ) (b : ℤ)
      (by exact_mod_cast hb) (by simpa using hco)
    simpa using h
  have hden : ((a : ℚ) / b).den = b := by
    have h := @Rat.den_div_eq_of_coprime (a : ℤ) (b : ℤ)
      (by exact_mod_cast hb) (by simpa using hco)
    have h2 : (((a : ℚ) / b).den : ℤ) = (b : ℤ) := by simpa using h
    exact_mod_cast h2
  rw [ratFloorNat, hnum, hden, Int.toNat_natCast]

theorem ratFloorNat_eq_floor (x : ℚ) (hx : 0 ≤ x) : ratFloorNat x = ⌊x⌋₊ := by
  have hnum : 0 ≤ x.num := Rat.num_nonneg.2 hx
  have hcast : ((x.num.toNat : ℕ) : ℚ) = ((x.num : ℤ) : ℚ) := by
    exact_mod_cast congrArg (Int.cast : ℤ → ℚ) (Int.toNat_of_nonneg hnum)
  have hx2 : x = (x.num.toNat : ℚ) / (x.den : ℚ) := by
    rw [hcast, Rat.num_div_den]
  conv_rhs => rw [hx2]
  rw [Nat.floor_div_eq_div]
  rfl

theorem roundHalfEven_dvd (a b : Nat) (hb : 0 < b) (h : b ∣ a) :
    roundHalfEven a b = a / b := by
  have hr : a % b = 0 := Nat.mod_eq_zero_of_dvd h
  simp [roundHalfEven, hr, hb]

theorem roundHalfEven_err (a b : Nat) (hb : 0 < b) :
    |(roundHalfEven a b : ℚ) - (a : ℚ) / b| ≤ 1 / 2 := by
  have hb0 : (0 : ℚ) < (b : ℚ) := by exact_mod_cast hb
  have hmod : ((a : ℕ) : ℚ) = (b : ℚ) * ((a / b : ℕ) : ℚ) + ((a % b : ℕ) : ℚ) := by
    exact_mod_cast (Nat.div_add_mod a b).symm
  have hxq : (a : ℚ) / b = ((a / b : ℕ) : ℚ) + ((a % b : ℕ) : ℚ) / b := by
    field_simp
    linear_combination hmod
  simp only [roundHalfEven]
  split_ifs with h1 h2 h3
  · have hc : ((2 * (a % b) : ℕ) : ℚ) < ((b : ℕ) : ℚ) := by exact_mod_cast h1
    push_cast at hc
    have hz : ((a % b : ℕ) : ℚ) / b < 1 / 2 := by
      rw [div_lt_iff₀ hb0]
      linarith
    have hznn : (0 : ℚ) ≤ ((a % b : ℕ) : ℚ) / b := by positivity
    rw [abs_le]
    constructor <;> rw [hxq] <;> push_cast <;> linarith
  · have hc : ((b : ℕ) : ℚ) < ((2 * (a % b) : ℕ) : ℚ) := by exact_mod_cast h2
    push_cast at hc
    have hz : (1 : ℚ) / 2 < ((a % b : ℕ) : ℚ) / b := by
      rw [lt_div_iff₀ hb0]
      linarith
    have hz2 : ((a % b : ℕ) : ℚ) / b < 1 := by
      rw [div_lt_one hb0]
      exact_mod_cast Nat.mod_lt a hb
    rw [abs_le]
    constructor <;> rw [hxq] <;> push_cast <;> linarith
  all_goals {
    have hb2 : 2 * (a % b) = b := by omega
    have hc : ((b : ℕ) : ℚ) = 2 * ((a % b : ℕ) : ℚ) := by exact_mod_cast hb2.symm
    have hz : ((a % b : ℕ) : ℚ) / b = 1 / 2 := by
      rw [hc]
      have hmb : ((a % b : ℕ) : ℚ) ≠ 0 := by
        have : 0 < a % b := by omega
        positivity
      field_simp
      ring
    rw [abs_le]
    constructor <;> rw [hxq] <;> push_cast <;> linarith }

theorem binExpNum_le (n d K : Nat) (hn : 0 < n) (hd : 0 < d) (h : n < 2 ^ K * d) :
    binExpNum n d ≤ (K : Int) := by
  have hd2 : d < 2 ^ (Nat.log2 d + 1) := Nat.lt_log2_self
  have h2 : n < 2 ^ (K + (Nat.log2 d + 1)) := by
    calc n < 2 ^ K * d := h
    _ < 2 ^ K * 2 ^ (Nat.log2 d + 1) :=
        mul_lt_mul_of_pos_left hd2 (by positivity)
    _ = 2 ^ (K + (Nat.log2 d + 1)) := (pow_add 2 K _).symm
  have h3 : Nat.log2 n < K + (Nat.log2 d + 1) := (Nat.log2_lt (by omega)).2 h2
  simp only [binExpNum, myLog2_eq]
  split_ifs <;> omega

theorem roundDoublePos_err (n d K : Nat) (hn : 0 < n) (hd : 0 < d) (hK : K ≤ 52)
    (h : n < 2 ^ K * d) :
    |roundDoublePos n d - (n : ℚ) / d| ≤ 1 / 2 ^ (53 - K) := by
  have he := binExpNum_le n d K hn hd h
  simp only [roundDoublePos]
  rw [if_pos (by omega : (0 : ℤ) ≤ 52 - binExpNum n d)]
  set s := ((52 : ℤ) - binExpNum n d).toNat with hs
  have hs1 : 52 - K ≤ s := by omega
  have hb0 : (0 : ℚ) < (d : ℚ) := by exact_mod_cast hd
  have h2s : (0 : ℚ) < ((2 ^ s : ℕ) : ℚ) := by positivity
  have herr := roundHalfEven_err (n * 2 ^ s) d hd
  have hcast : ((n * 2 ^ s : ℕ) : ℚ) = (n : ℚ) * ((2 ^ s : ℕ) : ℚ) := by push_cast; ring
  rw [hcast] at herr
  have key : (roundHalfEven (n * 2 ^ s) d : ℚ) / ((2 ^ s : ℕ) : ℚ) - (n : ℚ) / d
      = ((roundHalfEven (n * 2 ^ s) d : ℚ) - (n : ℚ) * ((2 ^ s : ℕ) : ℚ) / d)
        / ((2 ^ s : ℕ) : ℚ) := by
    field_simp
    ring
  rw [key, abs_div, abs_of_pos h2s]
  have hstep : |(roundHalfEven (n * 2 ^ s) d : ℚ) - (n : ℚ) * ((2 ^ s : ℕ) : ℚ) / d|
      / ((2 ^ s : ℕ) : ℚ) ≤ (1 / 2) / ((2 ^ s : ℕ) : ℚ) := by
    gcongr
  refine hstep.trans ?_
  have hpow : ((2 ^ s : ℕ) : ℚ) = (2 : ℚ) ^ s := by push_cast; ring
  rw [hpow, div_div, show (2 : ℚ) * 2 ^ s = 2 ^ (s + 1) from by ring]
  exact one_div_le_one_div_of_le (by positivity)
    (pow_le_pow_right₀ (by norm_num) (by omega))

theorem roundDoublePos_exact (n d : Nat) (hn : 0 < n) (hd : 0 < d) (hd2 : d ≤ 2)
    (h : n < 2 ^ 51 * d) : roundDoublePos n d = (n : ℚ) / d := by
  have he := binExpNum_le n d 51 hn hd h
  simp only [roundDoublePos]
  rw [if_pos (by omega : (0 : ℤ) ≤ 52 - binExpNum n d)]
  set s := ((52 : ℤ) - binExpNum n d).toNat with hs
  have hs1 : 1 ≤ s := by omega
  have hdvd : d ∣ n * 2 ^ s := by
    rcases (by omega : d = 1 ∨ d = 2) with h1 | h1
    · simp [h1]
    · subst h1
      exact Dvd.dvd.mul_left (dvd_pow_self 2 (by omega)) n
  rw [roundHalfEven_dvd _ _ hd hdvd]
  have hd0 : ((d : ℕ) : ℚ) ≠ 0 := by positivity
  have hcd : ((n * 2 ^ s / d : ℕ) : ℚ) = ((n * 2 ^ s : ℕ) : ℚ) / ((d : ℕ) : ℚ) :=
    Nat.cast_div hdvd hd0
  rw [hcd]
  have h2s : ((2 ^ s : ℕ) : ℚ) ≠ 0 := by positivity
  field_simp
  push_cast
  ring

theorem roundDouble_pos_nonneg (q : ℚ) (hq : 0 < q) : 0 ≤ roundDouble q := by
  rw [roundDouble_pos_eq q hq]
  simp only [roundDoublePos]
  split_ifs <;> positivity

theorem roundDouble_err (q : ℚ) (K : Nat) (hq : 0 < q) (hK : K ≤ 52) (h : q < 2 ^ K) :
    |roundDouble q - q| ≤ 1 / 2 ^ (53 - K) := by
  rw [roundDouble_pos_eq q hq]
  have hden : (0 : ℚ) < (q.den : ℚ) := by exact_mod_cast q.pos
  have hnum : (0 : ℤ) < q.num := Rat.num_pos.2 hq
  have hN : 0 < q.num.toNat := by omega
  have hcast : ((q.num.toNat : ℕ) : ℚ) = ((q.num : ℤ) : ℚ) := by
    exact_mod_cast congrArg (Int.cast : ℤ → ℚ) (Int.toNat_of_nonneg hnum.le)
  have hqe : q = (q.num.toNat : ℚ) / (q.den : ℚ) := by
    rw [hcast, Rat.num_div_den]
  have hbound : q.num.toNat < 2 ^ K * q.den := by
    have h2 : (q.num.toNat : ℚ) < 2 ^ K * q.den := by
      rw [← div_lt_iff₀ hden, ← hqe]
      exact h
    exact_mod_cast h2
  have := roundDoublePos_err q.num.toNat q.den K hN q.pos hK hbound
  rwa [← hqe] at this

/-- For `1000 ≤ b < 1e6`, rounding the double quotient `b / 1000` to the
nearest integer agrees with exact half-up rounding: the quotient is within
`2 ^ (-43)` of `b / 1000`, which is at least `1 / 1000` away from every
half-integer boundary except when `b ≡ 500 (mod 1000)`, and then the
quotient `k + 1/2` is itself a double, so the division is exact. -/
theorem jsMathRound_kb_exact (b : Nat) (h1 : 1000 ≤ b) (h2 : b < 1000000) :
    jsMathRound (jsDiv (b : ℚ) 1000) = (b + 500) / 1000 := by
  have hb0 : (0 : ℚ) < (b : ℚ) := by exact_mod_cast (by omega : 0 < b)
  have hy0 : (0 : ℚ) < (b : ℚ) / 1000 := by positivity
  have hylt : (b : ℚ) / 1000 < 2 ^ 10 := by
    rw [div_lt_iff₀ (by norm_num : (0 : ℚ) < 1000)]
    calc (b : ℚ) < 1000000 := by exact_mod_cast h2
    _ ≤ 2 ^ 10 * 1000 := by norm_num
  rw [jsDiv]
  by_cases h5 : b % 1000 = 500
  · obtain ⟨k, hk⟩ : ∃ k, b = 1000 * k + 500 := ⟨b / 1000, by omega⟩
    have hco : Nat.Coprime (2 * k + 1) 2 :=
      ((Nat.prime_two.coprime_iff_not_dvd).2 (by omega)).symm
    have hyeq : (b : ℚ) / 1000 = ((2 * k + 1 : ℕ) : ℚ) / ((2 : ℕ) : ℚ) := by
      subst hk
      push_cast
      rw [div_eq_div_iff (by norm_num) (by norm_num)]
      ring
    rw [hyeq, roundDouble_frac (2 * k + 1) 2 (by omega) (by norm_num) hco,
      roundDoublePos_exact (2 * k + 1) 2 (by omega) (by norm_num) (by omega) (by omega)]
    have hsum : ((2 * k + 1 : ℕ) : ℚ) / ((2 : ℕ) : ℚ) + 1 / 2 = ((k + 1 : ℕ) : ℚ) := by
      push_cast
      rw [div_add_div_same, div_eq_iff (by norm_num : (2 : ℚ) ≠ 0)]
      ring
    rw [jsMathRound, hsum, ratFloorNat_eq_floor _ (by positivity), Nat.floor_natCast]
    omega
  · set k := (b + 500) / 1000 with hkdef
    have herr := roundDouble_err ((b : ℚ) / 1000) 10 hy0 (by norm_num) hylt
    have habs := abs_le.mp herr
    have hdm : b + 500 = 1000 * k + (b + 500) % 1000 := by omega
    set r := (b + 500) % 1000 with hrdef
    have hr1 : 1 ≤ r := by omega
    have hr9 : r ≤ 999 := by omega
    have hy2 : (b : ℚ) / 1000 + 1 / 2 = (k : ℚ) + (r : ℚ) / 1000 := by
      have hcast : ((b : ℕ) : ℚ) + 500 = 1000 * (k : ℚ) + (r : ℚ) := by
        exact_mod_cast congrArg (Nat.cast : ℕ → ℚ) hdm
      field_simp
      linear_combination (2000 : ℚ) * hcast
    have hrq1 : (1 : ℚ) ≤ (r : ℚ) := by exact_mod_cast hr1
    have hrq9 : (r : ℚ) ≤ 999 := by exact_mod_cast hr9
    norm_num at habs
    have hlow : (k : ℚ) ≤ roundDouble ((b : ℚ) / 1000) + 1 / 2 := by
      have hek : (1 : ℚ) / 8796093022208 < 1 / 1000 := by norm_num
      linarith [habs.1, hy2]
    have hhigh : roundDouble ((b : ℚ) / 1000) + 1 / 2 < (k : ℚ) + 1 := by
      have hek : (1 : ℚ) / 8796093022208 < 1 / 1000 := by norm_num
      linarith [habs.2, hy2]
    have hnn : (0 : ℚ) ≤ roundDouble ((b : ℚ) / 1000) + 1 / 2 :=
      le_trans (by positivity) hlow
    rw [jsMathRound, ratFloorNat_eq_floor _ hnn, Nat.floor_eq_iff hnn]
    exact ⟨hlow, by push_cast; linarith⟩

theorem toFixed1Int_nearest (x : ℚ) (hx : 0 ≤ x) :
    |(toFixed1Int x : ℚ) / 10 - x| ≤ 1 / 20 := by
  have h0 : (0 : ℚ) ≤ 10 * x + 1 / 2 := by positivity
  have hfl : (toFixed1Int x : ℚ) ≤ 10 * x + 1 / 2 := by
    rw [toFixed1Int, ratFloorNat_eq_floor _ h0]
    exact Nat.floor_le h0
  have hfu : 10 * x + 1 / 2 < (toFixed1Int x : ℚ) + 1 := by
    rw [toFixed1Int, ratFloorNat_eq_floor _ h0]
    exact Nat.lt_floor_add_one _
  rw [abs_le]
  constructor <;> [linarith; linarith]

theorem jsDiv_1150000 :
    jsDiv ((1150000 : ℕ) : ℚ) ((1000000 : ℕ) : ℚ)
      = (5179139571476070 : ℚ) / 4503599627370496 := by
  rw [jsDiv, show ((1150000 : ℕ) : ℚ) / ((1000000 : ℕ) : ℚ)
      = ((23 : ℕ) : ℚ) / ((20 : ℕ) : ℚ) from by push_cast; norm_num,
    roundDouble_eval 23 20 0 52 5179139571476070 (by norm_num) (by norm_num)
      (by decide) (by decide) (by decide) (by decide) (by decide)]
  norm_num

theorem formatBitrate_1150000 : formatBitrate 1150000 = "1.1 Mb/s" := by
  rw [formatBitrate, if_pos (by norm_num)]
  have hdiv : jsDiv ((1150000 : ℕ) : ℚ) 1000000
      = (5179139571476070 : ℚ) / 4503599627370496 := by
    rw [show (1000000 : ℚ) = ((1000000 : ℕ) : ℚ) from by push_cast; rfl]
    exact jsDiv_1150000
  rw [toFixed1, toFixed1Int, hdiv,
    show (10 : ℚ) * ((5179139571476070 : ℚ) / 4503599627370496) + 1 / 2
      = ((13510798882111487 : ℕ) : ℚ) / ((1125899906842624 : ℕ) : ℚ) from by push_cast; norm_num,
    ratFloorNat_frac 13510798882111487 1125899906842624 (by norm_num) (by decide)]
  decide

theorem formatBitrate_500 : formatBitrate 500 = "500 b/s" := by decide

theorem formatBitrate_1500 : formatBitrate 1500 = "2 kb/s" := by
  rw [formatBitrate, if_neg (by norm_num), if_pos (by norm_num),
    jsMathRound_kb_exact 1500 (by norm_num) (by norm_num)]
  decide

theorem formatBitrate_2500000 : formatBitrate 2500000 = "2.5 Mb/s" := by
  rw [formatBitrate, if_pos (by norm_num)]
  have hdiv : jsDiv ((2500000 : ℕ) : ℚ) 1000000
      = (5629499534213120 : ℚ) / 2251799813685248 := by
    rw [jsDiv, show ((2500000 : ℕ) : ℚ) / (1000000 : ℚ)
        = ((5 : ℕ) : ℚ) / ((2 : ℕ) : ℚ) from by push_cast; norm_num,
      roundDouble_eval 5 2 1 51 5629499534213120 (by norm_num) (by norm_num)
        (by decide) (by decide) (by decide) (by decide) (by decide)]
    norm_num
  rw [toFixed1, toFixed1Int, hdiv,
    show (10 : ℚ) * ((5629499534213120 : ℚ) / 2251799813685248) + 1 / 2
      = ((51 : ℕ) : ℚ) / ((2 : ℕ) : ℚ) from by push_cast; norm_num,
    ratFloorNat_frac 51 2 (by norm_num) (by decide)]
  decide

theorem formatBitrate_1250000 : formatBitrate 1250000 = "1.3 Mb/s" := by
  rw [formatBitrate, if_pos (by norm_num)]
  have hdiv : jsDiv ((1250000 : ℕ) : ℚ) 1000000
      = (5629499534213120 : ℚ) / 4503599627370496 := by
    rw [jsDiv, show ((1250000 : ℕ) : ℚ) / (1000000 : ℚ)
        = ((5 : ℕ) : ℚ) / ((4 : ℕ) : ℚ) from by push_cast; norm_num,
      roundDouble_eval 5 4 0 52 5629499534213120 (by norm_num) (by norm_num)
        (by decide) (by decide) (by decide) (by decide) (by decide)]
    norm_num
  rw [toFixed1, toFixed1Int, hdiv,
    show (10 : ℚ) * ((5629499534213120 : ℚ) / 4503599627370496) + 1 / 2
      = ((13 : ℕ) : ℚ) / ((1 : ℕ) : ℚ) from by push_cast; norm_num,
    ratFloorNat_frac 13 1 (by norm_num) (by decide)]
  decide

theorem dbl235_eval : dbl (47 / 20) = (5291729562160333 : ℚ) / 2251799813685248 := by
  rw [dbl, show ((47 : ℚ) / 20) = ((47 : ℕ) : ℚ) / ((20 : ℕ) : ℚ) from by push_cast; norm_num,
    roundDouble_eval 47 20 1 51 5291729562160333 (by norm_num) (by norm_num)
      (by decide) (by decide) (by decide) (by decide) (by decide)]
  norm_num

theorem dbl239_eval : dbl (239 / 100) = (5381801554707743 : ℚ) / 2251799813685248 := by
  rw [dbl, show ((239 : ℚ) / 100) = ((239 : ℕ) : ℚ) / ((100 : ℕ) : ℚ) from by push_cast; norm_num,
    roundDouble_eval 239 100 1 51 5381801554707743 (by norm_num) (by norm_num)
      (by decide) (by decide) (by decide) (by decide) (by decide)]
  norm_num

theorem dbl185_eval : dbl (37 / 20) = (8331659310635418 : ℚ) / 4503599627370496 := by
  rw [dbl, show ((37 : ℚ) / 20) = ((37 : ℕ) : ℚ) / ((20 : ℕ) : ℚ) from by push_cast; norm_num,
    roundDouble_eval 37 20 0 52 8331659310635418 (by norm_num) (by norm_num)
      (by decide) (by decide) (by decide) (by decide) (by decide)]
  norm_num

theorem dbl178_eval : dbl (89 / 50) = (8016407336719483 : ℚ) / 4503599627370496 := by
  rw [dbl, show ((89 : ℚ) / 50) = ((89 : ℕ) : ℚ) / ((50 : ℕ) : ℚ) from by push_cast; norm_num,
    roundDouble_eval 89 50 0 52 8016407336719483 (by norm_num) (by norm_num)
      (by decide) (by decide) (by decide) (by decide) (by decide)]
  norm_num

theorem dbl01_eval : dbl (1 / 10) = (7205759403792794 : ℚ) / 72057594037927936 := by
  rw [dbl, show ((1 : ℚ) / 10) = ((1 : ℕ) : ℚ) / ((10 : ℕ) : ℚ) from by push_cast; norm_num,
    roundDouble_eval 1 10 (-4) 56 7205759403792794 (by norm_num) (by norm_num)
      (by decide) (by decide) (by decide) (by decide) (by decide)]
  norm_num

theorem ratio_720_480 : jsDiv (720 : ℚ) 480 = (6755399441055744 : ℚ) / 4503599627370496 := by
  rw [jsDiv, show (720 : ℚ) / 480 = ((3 : ℕ) : ℚ) / ((2 : ℕ) : ℚ) from by push_cast; norm_num,
    roundDouble_eval 3 2 0 52 6755399441055744 (by norm_num) (by norm_num)
      (by decide) (by decide) (by decide) (by decide) (by decide)]
  norm_num

theorem ratio_1920_800 : jsDiv (1920 : ℚ) 800 = (5404319552844595 : ℚ) / 2251799813685248 := by
  rw [jsDiv, show (1920 : ℚ) / 800 = ((12 : ℕ) : ℚ) / ((5 : ℕ) : ℚ) from by push_cast; norm_num,
    roundDouble_eval 12 5 1 51 5404319552844595 (by norm_num) (by norm_num)
      (by decide) (by decide) (by decide) (by decide) (by decide)]
  norm_num

theorem ratio_1950_1000 : jsDiv (1950 : ℚ) 1000 = (8782019273372467 : ℚ) / 4503599627370496 := by
  rw [jsDiv, show (1950 : ℚ) / 1000 = ((39 : ℕ) : ℚ) / ((20 : ℕ) : ℚ) from by push_cast; norm_num,
    roundDouble_eval 39 20 0 52 8782019273372467 (by norm_num) (by norm_num)
      (by decide) (by decide) (by decide) (by decide) (by decide)]
  norm_num

theorem sub_720_480_235 : jsSub ((6755399441055744 : ℚ) / 4503599627370496) ((5291729562160333 : ℚ) / 2251799813685248) = -((7656119366529844 : ℚ) / 9007199254740992) := by
  rw [jsSub, show (6755399441055744 : ℚ) / 4503599627370496 - (5291729562160333 : ℚ) / 2251799813685248 = -(((1914029841632461 : ℕ) : ℚ) / ((2251799813685248 : ℕ) : ℚ)) from by push_cast; norm_num,
    roundDouble_neg_eval 1914029841632461 2251799813685248 (-1) 53 7656119366529844 (by norm_num) (by norm_num)
      (by decide) (by decide) (by decide) (by decide) (by decide)]
  norm_num

theorem sub_720_480_239 : jsSub ((6755399441055744 : ℚ) / 4503599627370496) ((5381801554707743 : ℚ) / 2251799813685248) = -((8016407336719484 : ℚ) / 9007199254740992) := by
  rw [jsSub, show (6755399441055744 : ℚ) / 4503599627370496 - (5381801554707743 : ℚ) / 2251799813685248 = -(((2004101834179871 : ℕ) : ℚ) / ((2251799813685248 : ℕ) : ℚ)) from by push_cast; norm_num,
    roundDouble_neg_eval 2004101834179871 2251799813685248 (-1) 53 8016407336719484 (by norm_num) (by norm_num)
      (by decide) (by decide) (by decide) (by decide) (by decide)]
  norm_num

theorem sub_720_480_185 : jsSub ((6755399441055744 : ℚ) / 4503599627370496) ((8331659310635418 : ℚ) / 4503599627370496) = -((6305039478318696 : ℚ) / 18014398509481984) := by
  rw [jsSub, show (6755399441055744 : ℚ) / 4503599627370496 - (8331659310635418 : ℚ) / 4503599627370496 = -(((788129934789837 : ℕ) : ℚ) / ((2251799813685248 : ℕ) : ℚ)) from by push_cast; norm_num,
    roundDouble_neg_eval 788129934789837 2251799813685248 (-2) 54 6305039478318696 (by norm_num) (by norm_num)
      (by decide) (by decide) (by decide) (by decide) (by decide)]
  norm_num

theorem sub_720_480_178 : jsSub ((6755399441055744 : ℚ) / 4503599627370496) ((8016407336719483 : ℚ) / 4503599627370496) = -((5044031582654956 : ℚ) / 18014398509481984) := by
  rw [jsSub, show (6755399441055744 : ℚ) / 4503599627370496 - (8016407336719483 : ℚ) / 4503599627370496 = -(((1261007895663739 : ℕ) : ℚ) / ((4503599627370496 : ℕ) : ℚ)) from by push_cast; norm_num,
    roundDouble_neg_eval 1261007895663739 4503599627370496 (-2) 54 5044031582654956 (by norm_num) (by norm_num)
      (by decide) (by decide) (by decide) (by decide) (by decide)]
  norm_num

theorem sub_1920_800_235 : jsSub ((5404319552844595 : ℚ) / 2251799813685248) ((5291729562160333 : ℚ) / 2251799813685248) = (7205759403792768 : ℚ) / 144115188075855872 := by
  rw [jsSub, show (5404319552844595 : ℚ) / 2251799813685248 - (5291729562160333 : ℚ) / 2251799813685248 = ((56294995342131 : ℕ) : ℚ) / ((1125899906842624 : ℕ) : ℚ) from by push_cast; norm_num,
    roundDouble_eval 56294995342131 1125899906842624 (-5) 57 7205759403792768 (by norm_num) (by norm_num)
      (by decide) (by decide) (by decide) (by decide) (by decide)]
  norm_num

theorem sub_1950_1000_235 : jsSub ((8782019273372467 : ℚ) / 4503599627370496) ((5291729562160333 : ℚ) / 2251799813685248) = -((7205759403792796 : ℚ) / 18014398509481984) := by
  rw [jsSub, show (8782019273372467 : ℚ) / 4503599627370496 - (5291729562160333 : ℚ) / 2251799813685248 = -(((1801439850948199 : ℕ) : ℚ) / ((4503599627370496 : ℕ) : ℚ)) from by push_cast; norm_num,
    roundDouble_neg_eval 1801439850948199 4503599627370496 (-2) 54 7205759403792796 (by norm_num) (by norm_num)
      (by decide) (by decide) (by decide) (by decide) (by decide)]
  norm_num

theorem sub_1950_1000_239 : jsSub ((8782019273372467 : ℚ) / 4503599627370496) ((5381801554707743 : ℚ) / 2251799813685248) = -((7926335344172076 : ℚ) / 18014398509481984) := by
  rw [jsSub, show (8782019273372467 : ℚ) / 4503599627370496 - (5381801554707743 : ℚ) / 2251799813685248 = -(((1981583836043019 : ℕ) : ℚ) / ((4503599627370496 : ℕ) : ℚ)) from by push_cast; norm_num,
    roundDouble_neg_eval 1981583836043019 4503599627370496 (-2) 54 7926335344172076 (by norm_num) (by norm_num)
      (by decide) (by decide) (by decide) (by decide) (by decide)]
  norm_num

theorem sub_1950_1000_185 : jsSub ((8782019273372467 : ℚ) / 4503599627370496) ((8331659310635418 : ℚ) / 4503599627370496) = (7205759403792784 : ℚ) / 72057594037927936 := by
  rw [jsSub, show (8782019273372467 : ℚ) / 4503599627370496 - (8331659310635418 : ℚ) / 4503599627370496 = ((450359962737049 : ℕ) : ℚ) / ((4503599627370496 : ℕ) : ℚ) from by push_cast; norm_num,
    roundDouble_eval 450359962737049 4503599627370496 (-4) 56 7205759403792784 (by norm_num) (by norm_num)
      (by decide) (by decide) (by decide) (by decide) (by decide)]
  norm_num

theorem bucket_720_480_235 : ¬ (jsAbs (jsSub (jsDiv (720 : ℚ) 480) (dbl (47 / 20))) < dbl (1 / 10)) := by
  rw [ratio_720_480, dbl235_eval, sub_720_480_235, dbl01_eval]
  norm_num [jsAbs]

theorem bucket_720_480_239 : ¬ (jsAbs (jsSub (jsDiv (720 : ℚ) 480) (dbl (239 / 100))) < dbl (1 / 10)) := by
  rw [ratio_720_480, dbl239_eval, sub_720_480_239, dbl01_eval]
  norm_num [jsAbs]

theorem bucket_720_480_185 : ¬ (jsAbs (jsSub (jsDiv (720 : ℚ) 480) (dbl (37 / 20))) < dbl (1 / 10)) := by
  rw [ratio_720_480, dbl185_eval, sub_720_480_185, dbl01_eval]
  norm_num [jsAbs]

theorem bucket_720_480_178 : ¬ (jsAbs (jsSub (jsDiv (720 : ℚ) 480) (dbl (89 / 50))) < dbl (1 / 10)) := by
  rw [ratio_720_480, dbl178_eval, sub_720_480_178, dbl01_eval]
  norm_num [jsAbs]

theorem bucket_1920_800_235 : jsAbs (jsSub (jsDiv (1920 : ℚ) 800) (dbl (47 / 20))) < dbl (1 / 10) := by
  rw [ratio_1920_800, dbl235_eval, sub_1920_800_235, dbl01_eval]
  norm_num [jsAbs]

theorem bucket_1950_1000_235 : ¬ (jsAbs (jsSub (jsDiv (1950 : ℚ) 1000) (dbl (47 / 20))) < dbl (1 / 10)) := by
  rw [ratio_1950_1000, dbl235_eval, sub_1950_1000_235, dbl01_eval]
  norm_num [jsAbs]

theorem bucket_1950_1000_239 : ¬ (jsAbs (jsSub (jsDiv (1950 : ℚ) 1000) (dbl (239 / 100))) < dbl (1 / 10)) := by
  rw [ratio_1950_1000, dbl239_eval, sub_1950_1000_239, dbl01_eval]
  norm_num [jsAbs]

theorem bucket_1950_1000_185 : jsAbs (jsSub (jsDiv (1950 : ℚ) 1000) (dbl (37 / 20))) < dbl (1 / 10) := by
  rw [ratio_1950_1000, dbl185_eval, sub_1950_1000_185, dbl01_eval]
  norm_num [jsAbs]

theorem aspect_1920_1080 : aspectRatioOf 1920 1080 = "16:9" := by
  norm_num [aspectRatioOf]

theorem aspect_720_480 : aspectRatioOf 720 480 = "3:2" := by
  norm_num [aspectRatioOf, bucket_720_480_235, bucket_720_480_239, bucket_720_480_185,
    bucket_720_480_178]
  decide

theorem aspect_1920_800 : aspectRatioOf 1920 800 = "2.35:1" := by
  norm_num [aspectRatioOf, bucket_1920_800_235]

theorem aspect_1950_1000 : aspectRatioOf 1950 1000 = "1.85:1" := by
  norm_num [aspectRatioOf, bucket_1950_1000_235, bucket_1950_1000_239, bucket_1950_1000_185]

theorem aspectRatioOf_eq_spec (w h : Nat) :
    aspectRatioOf w h = specAspectRatio w h := by
  simp only [aspectRatioOf, specAspectRatio, canonicalRatioName, bucketRatioName]
  split_ifs <;> rfl



/-- C7 counterexample: the claim reads `(bps / 1000000).toFixed(1)` as the
exact value to one decimal place, but the digit is determined by the
binary64 quotient.  At 1150000 the exact quotient is 23/20 = 1.15, whose
one-decimal rounding (ties up, the convention of the claim's own
`Math.round` band) is 1.2, yet the program prints "1.1 Mb/s" because the
double below 1.15 is returned by the division; at 1250000 the exact
quotient 5/4 = 1.25 rounds to 1.2 under ties-down, yet the program prints
"1.3 Mb/s" because 1.25 is itself a double and ECMA `toFixed` resolves the
tie upward.  No exact-rational reading of "to one decimal place" matches
both. -/
theorem formatBitrate_toFixed_counterexample :
    formatBitrate 1150000 = "1.1 Mb/s" ∧
    (1150000 : ℚ) / 1000000 = 23 / 20 ∧
    ⌊(10 : ℚ) * (23 / 20) + 1 / 2⌋₊ = 12 ∧
    formatBitrate 1250000 = "1.3 Mb/s" ∧
    (1250000 : ℚ) / 1000000 = 5 / 4 ∧
    ⌈(10 : ℚ) * (5 / 4) - 1 / 2⌉₊ = 12 ∧
    ("1.1 Mb/s" : String) ≠ "1.2 Mb/s" ∧ ("1.3 Mb/s" : String) ≠ "1.2 Mb/s" := by
  refine ⟨formatBitrate_1150000, by norm_num, ?_, formatBitrate_1250000, by norm_num, ?_,
    by decide, by decide⟩
  · rw [show (10 : ℚ) * (23 / 20) + 1 / 2 = 12 from by norm_num]
    exact_mod_cast Nat.floor_natCast 12
  · rw [show (10 : ℚ) * (5 / 4) - 1 / 2 = 12 from by norm_num]
    exact_mod_cast Nat.ceil_natCast 12

/-- C7 (amended): `formatBitrate` follows the three threshold bands.
Below 1e3 the literal value is printed; for `1e3 ≤ b < 1e6` the kb value
is the nearest integer to `b / 1000` (ties up) — the double quotient never
shifts this rounding, so the exact integer formula `(b + 500) / 1000`
holds; for `b ≥ 1e6` the printed value is ECMA `toFixed(1)` of the
binary64 quotient `b / 1e6` — one decimal place of the double, within
1/20 of it, which at decimal ties can differ from one decimal place of
the exact quotient (1150000 prints "1.1 Mb/s").  The spec's three
examples hold. -/
theorem formatBitrate_spec (b : Nat) :
    (b < 1000 → formatBitrate b = toString b ++ " b/s") ∧
    (1000 ≤ b → b < 1000000 →
      formatBitrate b = toString ((b + 500) / 1000) ++ " kb/s") ∧
    (1000000 ≤ b →
      formatBitrate b = toFixed1 (jsDiv (b : ℚ) 1000000) ++ " Mb/s" ∧
      |(toFixed1Int (jsDiv (b : ℚ) 1000000) : ℚ) / 10 - jsDiv (b : ℚ) 1000000| ≤ 1 / 20) ∧
    formatBitrate 500 = "500 b/s" ∧
    formatBitrate 1500 = "2 kb/s" ∧
    formatBitrate 2500000 = "2.5 Mb/s" ∧
    formatBitrate 1150000 = "1.1 Mb/s" := by
  refine ⟨?_, ?_, ?_, formatBitrate_500, formatBitrate_1500, formatBitrate_2500000,
    formatBitrate_1150000⟩
  · intro h
    rw [formatBitrate, if_neg (by omega), if_neg (by omega)]
  · intro h1 h2
    rw [formatBitrate, if_neg (by omega), if_pos h1, jsMathRound_kb_exact b h1 h2]
  · intro h1
    refine ⟨by rw [formatBitrate, if_pos h1], ?_⟩
    apply toFixed1Int_nearest
    rw [jsDiv]
    have hb0 : (0 : ℚ) < (b : ℚ) := by exact_mod_cast (by omega : 0 < b)
    exact roundDouble_pos_nonneg _ (by positivity)

/-- C7 witness: the `< 1e3` band at 500. -/
theorem formatBitrate_spec_witness :
    (500 : Nat) < 1000 ∧ formatBitrate 500 = toString (500 : Nat) ++ " b/s" :=
  ⟨by decide, (formatBitrate_spec 500).1 (by decide)⟩

/-- C9: on every behaviour of the engine — success of both passes, failure
of the object pass, failure of the text pass — the adapter's event trace
holds exactly one `close`, `close` is its final event (so the instance is
released before the adapter returns or propagates an error), and the
adapter succeeds exactly when both passes do. -/
theorem analyzeMediaBuffer_close_spec (fileBuffer : List UInt8) (fileSize : Nat)
    (filename : String) (engine : EngineBehavior) :
    (analyzeMediaBuffer fileBuffer fileSize filename engine).2.count EngineEv.close = 1 ∧
    (analyzeMediaBuffer fileBuffer fileSize filename engine).2.getLast? = some EngineEv.close ∧
    (analyzeMediaBuffer fileBuffer fileSize filename engine).1.isOk =
      (engine.objectPass.isOk && engine.textPass.isOk) := by
  rcases engine with ⟨op, tp, it⟩
  cases op <;> cases tp <;>
    simp [analyzeMediaBuffer, tryFinallyTrace, Except.isOk, List.count, List.getLast?] <;>
    exact ⟨by decide, rfl⟩

/-- C6: the normalizer is total by construction; the empty raw result (no
`media` or an empty track list) yields the all-`"Unknown"` general
section with no video and empty audio/subtitle lists, and a `General`
track with every optional field absent yields exactly the same defaults. -/
theorem parseMediaInfo_defaults_spec (filename : String) (t : RawTrack) :
    parseMediaInfo ⟨none⟩ filename = emptyParsed filename ∧
    parseMediaInfo ⟨some []⟩ filename = emptyParsed filename ∧
    (emptyParsed filename).general =
      { container := "Unknown", size := "Unknown", runtime := "Unknown", bitrate := "Unknown" } ∧
    (emptyParsed filename).video = none ∧
    (emptyParsed filename).audio = [] ∧
    (emptyParsed filename).subtitles = [] ∧
    (t.type = "General" → t.Format = none → t.FileSize = none → t.Duration = none →
      t.OverallBitRate = none →
      parseMediaInfo ⟨some [t]⟩ filename = emptyParsed filename) := by
  refine ⟨rfl, rfl, rfl, rfl, rfl, rfl, ?_⟩
  intro ht hf hfs hd hob
  simp [parseMediaInfo, processTracks, parseGeneral, ht, hf, hfs, hd, hob,
    strOr, natTruthy, emptyParsed]

/-- C6 witness: the all-absent `General` track. -/
theorem parseMediaInfo_defaults_spec_witness :
    parseMediaInfo ⟨some [{ type := "General" }]⟩ "file.mkv" = emptyParsed "file.mkv" :=
  (parseMediaInfo_defaults_spec "file.mkv" { type := "General" }).2.2.2.2.2.2
    rfl rfl rfl rfl rfl

/-- C10: an audio track with no channel-count field is reported as `"2ch"`
(the code silently assumes 2 channels), and one with no bitrate field as
the literal `"Variable"`. -/
theorem parseAudio_defaults_spec (filename : String) (t : RawTrack)
    (ht : t.type = "Audio") :
    (t.Channels = none →
      (parseMediaInfo ⟨some [t]⟩ filename).audio.map AudioInfo.channels = ["2ch"]) ∧
    (t.BitRate = none →
      (parseMediaInfo ⟨some [t]⟩ filename).audio.map AudioInfo.bitrate = ["Variable"]) := by
  constructor
  · intro hc
    simp [parseMediaInfo, processTracks, ht, parseAudio, hc, natOr, audioChannelsStr,
      emptyParsed]
  · intro hb
    simp [parseMediaInfo, processTracks, ht, parseAudio, hb, natTruthy, emptyParsed]

/-- C10 witness: the bare audio track. -/
theorem parseAudio_defaults_spec_witness :
    (parseMediaInfo ⟨some [{ type := "Audio" }]⟩ "f").audio.map AudioInfo.channels = ["2ch"] ∧
    (parseMediaInfo ⟨some [{ type := "Audio" }]⟩ "f").audio.map AudioInfo.bitrate = ["Variable"] :=
  ⟨(parseAudio_defaults_spec "f" { type := "Audio" } rfl).1 rfl,
   (parseAudio_defaults_spec "f" { type := "Audio" } rfl).2 rfl⟩

/-- For a sole video track with truthy width and height, the reported
aspect ratio is `aspectRatioOf w h`. -/
theorem parseMediaInfo_video_aspect (filename : String) (t : RawTrack)
    (ht : t.type = "Video") (w h : Nat) (hW : t.Width = some w) (hH : t.Height = some h)
    (hw : w ≠ 0) (hh : h ≠ 0) :
    (parseMediaInfo ⟨some [t]⟩ filename).video.map VideoInfo.aspectRatio =
      some (aspectRatioOf w h) := by
  simp [parseMediaInfo, processTracks, ht, parseVideo, hW, hH, natOr, hw, hh, emptyParsed]

/-- C3 counterexample: a 1920×800 video track is labeled `"2.35:1"` — the
2.35 bucket is checked first and the double `|1920/800 − 2.35|`, about
0.05, is below the double `0.1` — not `"2.39:1"` as the claim's example
states. -/
theorem aspectRatio_1920_800_counterexample :
    (parseMediaInfo ⟨some [videoTrack1920x800]⟩ "f").video.map VideoInfo.aspectRatio =
      some "2.35:1" ∧
    ("2.35:1" : String) ≠ "2.39:1" := by
  constructor
  · have h := parseMediaInfo_video_aspect "f" videoTrack1920x800 rfl 1920 800 rfl rfl
      (by decide) (by decide)
    rw [h]
    rw [aspect_1920_800]
  · decide

/-- C3 (amended): for every video track with positive width and height the
normalizer's aspect ratio equals the reference definition (GCD reduction,
canonical ratios in order, then the 2.35 / 2.39 / 1.85 / 1.78 tolerance
buckets in that order on the binary64 double ratio, else the literal
reduced fraction); in particular (1920,1080) yields "16:9", (720,480)
yields "3:2", (1920,800) falls into the 2.35 bucket, which is checked
first, yielding "2.35:1", and (1950,1000) — exact ratio 1.95, double
ratio just below it — falls into the 1.85 bucket, yielding "1.85:1". -/
theorem aspectRatio_spec (filename : String) (t : RawTrack) (w h : Nat)
    (hw : 0 < w) (hh : 0 < h) (ht : t.type = "Video")
    (hW : t.Width = some w) (hH : t.Height = some h) :
    (parseMediaInfo ⟨some [t]⟩ filename).video.map VideoInfo.aspectRatio =
      some (aspectRatioOf w h) ∧
    aspectRatioOf w h = specAspectRatio w h ∧
    aspectRatioOf 1920 1080 = "16:9" ∧
    aspectRatioOf 720 480 = "3:2" ∧
    aspectRatioOf 1920 800 = "2.35:1" ∧
    aspectRatioOf 1950 1000 = "1.85:1" :=
  ⟨parseMediaInfo_video_aspect filename t ht w h hW hH
      (Nat.pos_iff_ne_zero.mp hw) (Nat.pos_iff_ne_zero.mp hh),
    aspectRatioOf_eq_spec w h,
    aspect_1920_1080, aspect_720_480, aspect_1920_800, aspect_1950_1000⟩

/-- C3 witness: a 1920×1080 video track. -/
theorem aspectRatio_spec_witness :
    (parseMediaInfo ⟨some [videoTrack1920x1080]⟩ "f").video.map VideoInfo.aspectRatio =
      some (aspectRatioOf 1920 1080) :=
  (aspectRatio_spec "f" videoTrack1920x1080 1920 1080 (by decide) (by decide)
    rfl rfl rfl).1

/-- For a sole audio track, the reported codec label is `audioCodecOf`. -/
theorem parseMediaInfo_audio_codec (filename : String) (t : RawTrack)
    (ht : t.type = "Audio") :
    (parseMediaInfo ⟨some [t]⟩ filename).audio.map AudioInfo.codec = [audioCodecOf t] := by
  simp [parseMediaInfo, processTracks, ht, parseAudio, emptyParsed]

/-- C8 counterexample: an audio track whose base format contains "TrueHD"
but whose format-profile field is absent keeps the label `"TrueHD"` — the
whole upgrade is gated on `if (formatProfile)` — contradicting the claim's
unconditional `"MLP FBA"` (and no Atmos suffix is appended although the
commercial name mentions Atmos). -/
theorem audioCodec_profile_gate_counterexample :
    (parseMediaInfo ⟨some [trueHdNoProfileTrack]⟩ "f").audio.map AudioInfo.codec =
      ["TrueHD"] ∧
    ("TrueHD" : String) ≠ "MLP FBA" := by
  constructor
  · have h := parseMediaInfo_audio_codec "f" trueHdNoProfileTrack rfl
    rw [h]
    have h2 : audioCodecOf trueHdNoProfileTrack = "TrueHD" := by decide
    rw [h2]
  · decide

/-- C8 (amended): provided the format-profile field is present and
non-empty, an audio base format equal to "MLP FBA" or containing "TrueHD"
is normalized to "MLP FBA", with " (Dolby Atmos)" appended exactly when
the commercial-name field mentions Atmos; and a base format "DTS" whose
profile mentions "MA" is relabeled "DTS-HD MA" (such a profile is
necessarily non-empty, so no extra proviso is needed there).  The codec
label `parseMediaInfo` reports for a sole audio track is `audioCodecOf`. -/
theorem audioCodec_spec (filename : String) (t : RawTrack) (ht : t.type = "Audio") :
    (parseMediaInfo ⟨some [t]⟩ filename).audio.map AudioInfo.codec = [audioCodecOf t] ∧
    (strTruthy t.Format_Profile = true →
      (strOr t.Format "Unknown" = "MLP FBA" ∨
        strIncludes (strOr t.Format "Unknown") "TrueHD" = true) →
      audioCodecOf t =
        (if mentionsAtmos t then "MLP FBA (Dolby Atmos)" else "MLP FBA")) ∧
    (strOr t.Format "Unknown" = "DTS" →
      strIncludes (t.Format_Profile.getD "") "MA" = true →
      audioCodecOf t = "DTS-HD MA") := by
  refine ⟨parseMediaInfo_audio_codec filename t ht, ?_, ?_⟩
  · intro hp hbase
    simp only [audioCodecOf]
    rw [if_pos hp, if_pos hbase]
    cases hA : mentionsAtmos t
    · simp [hA]
    · simp [hA]
  · intro hbase hma
    have hp : strTruthy t.Format_Profile = true := by
      rcases hfp : t.Format_Profile with _ | p
      · rw [hfp] at hma
        exact absurd hma (by decide)
      · rw [hfp] at hma
        have hpe : p ≠ "" := by
          intro h0
          rw [h0] at hma
          exact absurd hma (by decide)
        simp [strTruthy, hpe]
    have hniT : strIncludes "DTS" "TrueHD" = false := by decide
    have hniM : ("DTS" : String) = "MLP FBA" ↔ False := by simp
    simp [audioCodecOf, hp, hbase, hma, hniT, hniM]

/-- C8 witness: a TrueHD-family track with profile and Atmos commercial
name gets the label "MLP FBA (Dolby Atmos)". -/
theorem audioCodec_spec_witness :
    strTruthy mlpAtmosTrack.Format_Profile = true ∧
    audioCodecOf mlpAtmosTrack = "MLP FBA (Dolby Atmos)" := by
  refine ⟨by decide, ?_⟩
  have h := (audioCodec_spec "f" mlpAtmosTrack rfl).2.1 (by decide) (Or.inl (by decide))
  exact h.trans (by decide)

/-- C5: the resolver classifies an input as a direct URL iff it parses as
an absolute `http:`/`https:` URL whose host is not a configured
cloud-storage domain; otherwise drive extraction accepts a bare
`[a-zA-Z0-9_-]{25,}` identifier directly, else runs the fixed pattern
list (file/view path, `open?id=`, `uc?id=`, generic `id=`, `folders/`,
generic `/d/`) in order with first match winning, and yields `none`
(the caller's reference failure) when nothing matches. -/
theorem resolver_spec (parsed : Option JsUrl) (link : String) :
    (isDirectUrl parsed = true ↔
      ∃ u, parsed = some u ∧ (u.protocol = "http:" ∨ u.protocol = "https:") ∧
        isDriveHost u.hostname = false) ∧
    (bareIdTest link = true → extractFileId link = some (jsTrim link)) ∧
    (bareIdTest link = false →
      (∀ v, matchCapture "/file/d/" link = some v → extractFileId link = some v) ∧
      (matchCapture "/file/d/" link = none →
        (∀ v, matchCapture "/open?id=" link = some v → extractFileId link = some v) ∧
        (matchCapture "/open?id=" link = none →
          (∀ v, matchCapture "/uc?id=" link = some v → extractFileId link = some v) ∧
          (matchCapture "/uc?id=" link = none →
            (∀ v, matchCapture "id=" link = some v → extractFileId link = some v) ∧
            (matchCapture "id=" link = none →
              (∀ v, matchCapture "/folders/" link = some v → extractFileId link = some v) ∧
              (matchCapture "/folders/" link = none →
                (∀ v, matchCapture "/d/" link = some v → extractFileId link = some v) ∧
                (matchCapture "/d/" link = none → extractFileId link = none))))))) := by
  refine ⟨?_, ?_, ?_⟩
  · cases parsed with
    | none => simp [isDirectUrl]
    | some u =>
      simp only [isDirectUrl]
      split_ifs with h1 h2
      · simp only [Bool.false_eq_true, false_iff]
        rintro ⟨u', hu', hp, _⟩
        cases hu'
        rcases hp with hp | hp <;> [exact h1.1 hp; exact h1.2 hp]
      · simp only [Bool.false_eq_true, false_iff]
        rintro ⟨u', hu', _, hh⟩
        cases hu'
        rw [h2] at hh
        cases hh
      · simp only [true_iff]
        refine ⟨u, rfl, ?_, ?_⟩
        · by_cases hp : u.protocol = "http:"
          · exact Or.inl hp
          · exact Or.inr (by_contra fun hq => h1 ⟨hp, hq⟩)
        · simpa using h2
  · intro h
    simp [extractFileId, h]
  · intro hb
    refine ⟨?_, fun h1 => ⟨?_, fun h2 => ⟨?_, fun h3 => ⟨?_, fun h4 => ⟨?_, fun h5 =>
      ⟨?_, fun h6 => ?_⟩⟩⟩⟩⟩⟩ <;>
      first
      | (intro v hv
         simp_all [extractFileId, driveIdPatterns, List.findSome?])
      | simp_all [extractFileId, driveIdPatterns, List.findSome?]

/-- C5 witness: a plain https URL is a direct URL, and a Drive `file/d/`
link yields its id through the first pattern. -/
theorem resolver_spec_witness :
    isDirectUrl (some { protocol := "https:", hostname := "example.com" }) = true ∧
    extractFileId "https://drive.google.com/file/d/1A2B3C/view" = some "1A2B3C" := by
  constructor
  · exact (resolver_spec (some { protocol := "https:", hostname := "example.com" }) "").1.mpr
      ⟨_, rfl, Or.inr rfl, by decide⟩
  · exact ((resolver_spec none "https://drive.google.com/file/d/1A2B3C/view").2.2
      (by decide)).1 "1A2B3C" (by decide)

/-- Against `plainGetBehavior` the downloader returns the body verbatim,
whatever its size. -/
theorem downloadFromUrl_plainGet (body : List UInt8) :
    downloadFromUrl (plainGetBehavior body) MAX_DOWNLOAD_SIZE =
      some { buffer := body, fileSize := body.length, filename := "big.bin" } := rfl

/-- C2 counterexample: when the size cannot be learned (HEAD throws), the
code sends a plain GET and keeps the whole response body without
truncation, so a server that returns 10 MiB + 1 bytes yields a
`ByteWindow` whose buffer exceeds the configured 10 MiB cap. -/
theorem downloadFromUrl_cap_counterexample :
    downloadFromUrl (plainGetBehavior oversizeBody) MAX_DOWNLOAD_SIZE =
      some { buffer := oversizeBody, fileSize := oversizeBody.length,
             filename := "big.bin" } ∧
    oversizeBody.length = 10485761 ∧
    MAX_DOWNLOAD_SIZE < 10485761 :=
  ⟨downloadFromUrl_plainGet oversizeBody,
   by unfold oversizeBody; exact List.length_replicate _ _,
   by norm_num⟩

/-- C2 (amended): the buffer is always the GET response body verbatim (the
code never truncates), and `Range: bytes=0-(cap-1)` is sent exactly when
the size known beforehand exceeds the cap.  The buffer length therefore
stays within the cap provided the collaborator honours the Range request
(at most `maxBytes` bytes when Range was sent) and otherwise returns at
most the size learned beforehand — or at most the cap itself when no size
was learned; without that proviso the bound fails (see the
counterexample). -/
theorem download_cap_spec (maxBytes : Nat) (ub : UrlBehavior) (db : DriveBehavior)
    (hub1 : ∀ r, ub.get true = some r → r.body.length ≤ maxBytes)
    (hub2 : ∀ r, ub.get false = some r →
      r.body.length ≤ headSize ub ∨ r.body.length ≤ maxBytes)
    (hdb1 : ∀ r, db.get true = some r → r.body.length ≤ maxBytes)
    (hdb2 : ∀ n r, db.metadataSize = some (some n) → db.get false = some r →
      r.body.length ≤ n) :
    (urlRangeRequested ub maxBytes = true ↔ maxBytes < headSize ub) ∧
    (∀ res, downloadFromUrl ub maxBytes = some res →
      (∃ r, ub.get (urlRangeRequested ub maxBytes) = some r ∧ res.buffer = r.body) ∧
      res.buffer.length ≤ maxBytes) ∧
    (∀ buf sz, downloadFileContent db maxBytes = some (buf, sz) →
      buf.length ≤ maxBytes) := by
  refine ⟨by simp [urlRangeRequested], ?_, ?_⟩
  · intro res hres
    simp only [downloadFromUrl] at hres
    by_cases hr : urlRangeRequested ub maxBytes = true
    · rw [hr] at hres ⊢
      cases hg : ub.get true with
      | none => rw [hg] at hres; exact Option.noConfusion hres
      | some r =>
        rw [hg] at hres
        dsimp only at hres
        split_ifs at hres
        all_goals
          injection hres with h
          subst h
          refine ⟨⟨r, rfl, rfl⟩, ?_⟩
          show r.body.length ≤ maxBytes
          exact hub1 r hg
    · rw [Bool.not_eq_true] at hr
      rw [hr] at hres ⊢
      have hhs : ¬ maxBytes < headSize ub := by
        simpa [urlRangeRequested] using hr
      cases hg : ub.get false with
      | none => rw [hg] at hres; exact Option.noConfusion hres
      | some r =>
        rw [hg] at hres
        dsimp only at hres
        split_ifs at hres
        all_goals
          injection hres with h
          subst h
          refine ⟨⟨r, rfl, rfl⟩, ?_⟩
          show r.body.length ≤ maxBytes
          rcases hub2 r hg with h2 | h2
          · omega
          · exact h2
  · intro buf sz hres
    simp only [downloadFileContent] at hres
    cases hm : db.metadataSize with
    | none => rw [hm] at hres; exact Option.noConfusion hres
    | some msz =>
      rw [hm] at hres
      cases msz with
      | none => simp at hres
      | some n =>
        simp only [Option.getD_some] at hres
        split_ifs at hres with hn0
        · by_cases hr : driveRangeRequested db maxBytes = true
          · rw [hr] at hres
            cases hg : db.get true with
            | none => rw [hg] at hres; exact Option.noConfusion hres
            | some r =>
              rw [hg] at hres
              dsimp only at hres
              split_ifs at hres
              · injection hres with h
                injection h with h1 h2
                subst h1
                exact hdb1 r hg
          · rw [Bool.not_eq_true] at hr
            rw [hr] at hres
            have hle : n ≤ maxBytes := by
              have h2 := hr
              simp only [driveRangeRequested, hm, decide_eq_false_iff_not] at h2
              omega
            cases hg : db.get false with
            | none => rw [hg] at hres; exact Option.noConfusion hres
            | some r =>
              rw [hg] at hres
              dsimp only at hres
              split_ifs at hres
              · injection hres with h
                injection h with h1 h2
                subst h1
                exact le_trans (hdb2 n r hm hg) hle

/-- C2 witness: an honest collaborator (empty bodies) stays within the cap. -/
theorem download_cap_spec_witness :
    downloadFromUrl (plainGetBehavior []) MAX_DOWNLOAD_SIZE =
      some { buffer := [], fileSize := ([] : List UInt8).length, filename := "big.bin" } ∧
    ({ buffer := [], fileSize := ([] : List UInt8).length, filename := "big.bin" } :
        DownloadResult).buffer.length ≤ MAX_DOWNLOAD_SIZE := by
  have h1 : ∀ r, (plainGetBehavior []).get true = some r →
      r.body.length ≤ MAX_DOWNLOAD_SIZE := by
    intro r hr
    have he : ({ ok := true, status := 200, body := [] } : GetResp) = r := by
      simpa [plainGetBehavior] using hr
    subst he
    decide
  have h2 : ∀ r, (plainGetBehavior []).get false = some r →
      r.body.length ≤ headSize (plainGetBehavior []) ∨
        r.body.length ≤ MAX_DOWNLOAD_SIZE := by
    intro r hr
    have he : ({ ok := true, status := 200, body := [] } : GetResp) = r := by
      simpa [plainGetBehavior] using hr
    subst he
    exact Or.inr (by decide)
  have h3 : ∀ r, smallDriveBehavior.get true = some r →
      r.body.length ≤ MAX_DOWNLOAD_SIZE := by
    intro r hr
    have he : ({ ok := true, status := 200 } : GetResp) = r := by
      simpa [smallDriveBehavior] using hr
    subst he
    decide
  have h4 : ∀ n r, smallDriveBehavior.metadataSize = some (some n) →
      smallDriveBehavior.get false = some r → r.body.length ≤ n := by
    intro n r hn hr
    have he : ({ ok := true, status := 200 } : GetResp) = r := by
      simpa [smallDriveBehavior] using hr
    subst he
    simp
  exact ⟨downloadFromUrl_plainGet [],
    ((download_cap_spec MAX_DOWNLOAD_SIZE (plainGetBehavior []) smallDriveBehavior
        h1 h2 h3 h4).2.1 _ (downloadFromUrl_plainGet [])).2⟩

theorem strLength_mk (l : List Char) : (String.mk l).length = l.length := rfl

theorem hugeLink_length : hugeLink.length = 4046 := by
  unfold hugeLink
  rw [strLength_mk]
  exact List.length_replicate _ _

theorem hugeLinkPart_length : (linkPartOf (some hugeLink)).length = 4070 := by
  show ("\n\n📋 <b>Full Report:</b> " ++ hugeLink).length = 4070
  rw [String.length_append, hugeLink_length]
  decide

/-- C4 counterexample: with a transcript link whose link part is 4070
characters, the combined report exceeds the threshold, the body cut
`3900 − 4070` clamps to zero, and the delivered message is the 27-character
marker plus the link part: 4097 characters, above the claim's 4096 bound
(the code bounds nothing about the link itself). -/
theorem fallbackMessage_overlong_link_counterexample :
    4000 < ("" ++ linkPartOf (some hugeLink)).length ∧
    4096 < (fallbackMessage "" (some hugeLink)).length := by
  have h0 : ("" : String).length = 0 := rfl
  have hgt : 4000 < ("" ++ linkPartOf (some hugeLink)).length := by
    rw [String.length_append, h0, hugeLinkPart_length]
    omega
  refine ⟨hgt, ?_⟩
  unfold fallbackMessage
  rw [if_pos hgt]
  rw [String.length_append, String.length_append, strLength_mk, List.length_take,
    hugeLinkPart_length]
  have hm : ("\n\n<i>[Output truncated]</i>" : String).length = 27 := by decide
  rw [hm]
  omega

/-- C4 (amended): a response (styled report plus link part) of combined
length at most the code's 4000-character threshold is delivered
unmodified; when it exceeds the threshold and the link part (separator,
label and URL) is at most 4069 characters, the delivered message is at
most 4096 characters and consists of a leading piece of the report, the
visible marker `[Output truncated]`, and the link part intact at the end.
The 4069-character proviso on the link part is necessary (see the
counterexample). -/
theorem fallbackMessage_truncation_spec (body : String) (pasteUrl : Option String) :
    (∀ url, pasteUrl = some url →
      linkPartOf pasteUrl = "\n\n📋 <b>Full Report:</b> " ++ url) ∧
    ((body ++ linkPartOf pasteUrl).length ≤ 4000 →
      fallbackMessage body pasteUrl = body ++ linkPartOf pasteUrl) ∧
    (4000 < (body ++ linkPartOf pasteUrl).length →
      (linkPartOf pasteUrl).length ≤ 4069 →
      (fallbackMessage body pasteUrl).length ≤ 4096 ∧
      ∃ pre, fallbackMessage body pasteUrl =
        pre ++ "\n\n<i>[Output truncated]</i>" ++ linkPartOf pasteUrl) := by
  refine ⟨?_, ?_, ?_⟩
  · rintro url rfl
    rfl
  · intro h
    unfold fallbackMessage
    rw [if_neg (by omega)]
  · intro h hL
    constructor
    · unfold fallbackMessage
      rw [if_pos h]
      rw [String.length_append, String.length_append, strLength_mk, List.length_take]
      have hm : ("\n\n<i>[Output truncated]</i>" : String).length = 27 := by decide
      have hdl : (body ++ linkPartOf pasteUrl).data.length =
          body.length + (linkPartOf pasteUrl).length := by
        rw [show (body ++ linkPartOf pasteUrl).data.length =
          (body ++ linkPartOf pasteUrl).length from rfl, String.length_append]
      rw [hm, hdl]
      have h' : 4000 < body.length + (linkPartOf pasteUrl).length := by
        rw [String.length_append] at h
        exact h
      omega
    · unfold fallbackMessage
      rw [if_pos h]
      exact ⟨_, rfl⟩

/-- C4 witness: a 4500-character report with a short real link is
truncated to within the bound with the marker and the intact link. -/
theorem fallbackMessage_truncation_spec_witness :
    (fallbackMessage (String.mk (List.replicate 4500 'b'))
        (some "https://paste.rs/x")).length ≤ 4096 := by
  have hb : (String.mk (List.replicate 4500 'b')).length = 4500 := by
    rw [strLength_mk]
    exact List.length_replicate _ _
  have hL : (linkPartOf (some "https://paste.rs/x")).length = 42 := by decide
  have h : 4000 <
      (String.mk (List.replicate 4500 'b') ++ linkPartOf (some "https://paste.rs/x")).length := by
    rw [String.length_append, hb, hL]
    omega
  exact ((fallbackMessage_truncation_spec (String.mk (List.replicate 4500 'b'))
      (some "https://paste.rs/x")).2.2 h (by rw [hL]; omega)).1

theorem intercalate4 (a b c d : String) :
    String.intercalate "; " [a, b, c, d] = a ++ "; " ++ b ++ "; " ++ c ++ "; " ++ d := rfl

theorem strContains_self (a : String) : strContains a a :=
  ⟨[], [], by simp⟩

theorem strContains_append_left (a b c : String) (h : strContains a c) :
    strContains (a ++ b) c := by
  obtain ⟨p, q, hp⟩ := h
  exact ⟨p, q ++ b.data, by simp [String.data_append, hp, List.append_assoc]⟩

theorem strContains_append_right (a b c : String) (h : strContains b c) :
    strContains (a ++ b) c := by
  obtain ⟨p, q, hp⟩ := h
  exact ⟨a.data ++ p, q, by simp [String.data_append, hp, List.append_assoc]⟩

theorem uploadToPasteRs_success_iff (o : Except String TextResp) :
    (uploadToPasteRs o).success = true ↔ pasteRsShape o := by
  cases o with
  | error e => simp [uploadToPasteRs, pasteFail, pasteRsShape]
  | ok r =>
    simp only [uploadToPasteRs]
    split_ifs with h1 h2
    · simp [pasteFail, pasteRsShape, h1]
    · have hok : r.ok = true := by simpa using h1
      simp only [pasteRsShape]
      simp [h2.1, h2.2, hok]
    · rw [Bool.not_eq_false] at h1
      simp only [pasteFail, pasteRsShape]
      simp only [not_and] at h2
      constructor
      · intro hfalse
        cases hfalse
      · rintro ⟨r', hr', hok, hne, hsw⟩
        cases hr'
        exact absurd hsw (by simpa using h2 hne)

theorem uploadToDpaste_success_iff (o : Except String TextResp) :
    (uploadToDpaste o).success = true ↔ dpasteShape o := by
  cases o with
  | error e => simp [uploadToDpaste, pasteFail, dpasteShape]
  | ok r =>
    simp only [uploadToDpaste]
    split_ifs with h1 h2
    · simp [pasteFail, dpasteShape, h1]
    · have hok : r.ok = true := by simpa using h1
      simp only [dpasteShape]
      simp [h2.1, h2.2, hok]
    · rw [Bool.not_eq_false] at h1
      simp only [pasteFail, dpasteShape]
      simp only [not_and] at h2
      constructor
      · intro hfalse
        cases hfalse
      · rintro ⟨r', hr', hok, hne, hsw⟩
        cases hr'
        exact absurd hsw (by simpa using h2 hne)

theorem uploadTo0x0_success_iff (o : Except String TextResp) :
    (uploadTo0x0 o).success = true ↔ zeroXZeroShape o := by
  cases o with
  | error e => simp [uploadTo0x0, pasteFail, zeroXZeroShape]
  | ok r =>
    simp only [uploadTo0x0]
    split_ifs with h1 h2
    · simp [pasteFail, zeroXZeroShape, h1]
    · have hok : r.ok = true := by simpa using h1
      simp only [zeroXZeroShape]
      simp [h2.1, h2.2, hok]
    · rw [Bool.not_eq_false] at h1
      simp only [pasteFail, zeroXZeroShape]
      simp only [not_and] at h2
      constructor
      · intro hfalse
        cases hfalse
      · rintro ⟨r', hr', hok, hne, hsw⟩
        cases hr'
        exact absurd hsw (by simpa using h2 hne)

theorem uploadToHastebin_success_iff (o : Except String JsonResp) :
    (uploadToHastebin o).success = true ↔ hastebinShape o := by
  cases o with
  | error e => simp [uploadToHastebin, pasteFail, hastebinShape]
  | ok r =>
    simp only [uploadToHastebin]
    split_ifs with h1
    · simp [pasteFail, hastebinShape, h1]
    · rw [Bool.not_eq_false] at h1
      cases hk : r.key with
      | error e => simp [pasteFail, hastebinShape, hk]
      | ok kopt =>
        cases kopt with
        | none => simp [pasteFail, hastebinShape, hk]
        | some key =>
          dsimp only
          split_ifs with h2
          · simp [hastebinShape, hk, h1, h2]
          · simp only [not_not] at h2  
            simp [pasteFail, hastebinShape, hk, h2]

/-- C1: the transcript upload tries the four providers in the fixed order
paste.rs, dpaste.org, 0x0.st, hastebin; an attempt succeeds exactly when
the HTTP response has a success status and the body matches that
provider's expected shape; the first success is returned as-is (that
provider's URL) and ends the chain, the providers actually fetched are
always a duplicate-free prefix of the fixed order; and when all four fail
the single aggregated failure's message contains all four
provider-specific sub-messages. -/
theorem uploadToPastebin_chain_spec (env : PasteEnv) :
    ((uploadToPasteRs env.pasteRs).success = true ↔ pasteRsShape env.pasteRs) ∧
    ((uploadToDpaste env.dpaste).success = true ↔ dpasteShape env.dpaste) ∧
    ((uploadTo0x0 env.zeroXZero).success = true ↔ zeroXZeroShape env.zeroXZero) ∧
    ((uploadToHastebin env.hastebin).success = true ↔ hastebinShape env.hastebin) ∧
    attemptedProviders env <+: ["paste.rs", "dpaste.org", "0x0.st", "hastebin"] ∧
    (attemptedProviders env).Nodup ∧
    ((uploadToPasteRs env.pasteRs).success = true →
      uploadToPastebin env = uploadToPasteRs env.pasteRs ∧
      attemptedProviders env = ["paste.rs"]) ∧
    ((uploadToPasteRs env.pasteRs).success = false →
      (uploadToDpaste env.dpaste).success = true →
      uploadToPastebin env = uploadToDpaste env.dpaste ∧
      attemptedProviders env = ["paste.rs", "dpaste.org"]) ∧
    ((uploadToPasteRs env.pasteRs).success = false →
      (uploadToDpaste env.dpaste).success = false →
      (uploadTo0x0 env.zeroXZero).success = true →
      uploadToPastebin env = uploadTo0x0 env.zeroXZero ∧
      attemptedProviders env = ["paste.rs", "dpaste.org", "0x0.st"]) ∧
    ((uploadToPasteRs env.pasteRs).success = false →
      (uploadToDpaste env.dpaste).success = false →
      (uploadTo0x0 env.zeroXZero).success = false →
      (uploadToHastebin env.hastebin).success = true →
      uploadToPastebin env = uploadToHastebin env.hastebin ∧
      attemptedProviders env = ["paste.rs", "dpaste.org", "0x0.st", "hastebin"]) ∧
    ((uploadToPasteRs env.pasteRs).success = false →
      (uploadToDpaste env.dpaste).success = false →
      (uploadTo0x0 env.zeroXZero).success = false →
      (uploadToHastebin env.hastebin).success = false →
      (uploadToPastebin env).success = false ∧
      (uploadToPastebin env).error = some (pasteAggregateError env) ∧
      strContains (pasteAggregateError env) (pasteSubMsg1 env) ∧
      strContains (pasteAggregateError env) (pasteSubMsg2 env) ∧
      strContains (pasteAggregateError env) (pasteSubMsg3 env) ∧
      strContains (pasteAggregateError env) (pasteSubMsg4 env)) := by
  have hattempt : attemptedProviders env = ["paste.rs"] ∨
      attemptedProviders env = ["paste.rs", "dpaste.org"] ∨
      attemptedProviders env = ["paste.rs", "dpaste.org", "0x0.st"] ∨
      attemptedProviders env = ["paste.rs", "dpaste.org", "0x0.st", "hastebin"] := by
    by_cases b1 : (uploadToPasteRs env.pasteRs).success = true
    · exact Or.inl (by simp [attemptedProviders, b1])
    · by_cases b2 : (uploadToDpaste env.dpaste).success = true
      · exact Or.inr (Or.inl (by simp [attemptedProviders, b1, b2]))
      · by_cases b3 : (uploadTo0x0 env.zeroXZero).success = true
        · exact Or.inr (Or.inr (Or.inl (by simp [attemptedProviders, b1, b2, b3])))
        · exact Or.inr (Or.inr (Or.inr (by simp [attemptedProviders, b1, b2, b3])))
  refine ⟨uploadToPasteRs_success_iff _, uploadToDpaste_success_iff _,
    uploadTo0x0_success_iff _, uploadToHastebin_success_iff _, ?_, ?_, ?_, ?_, ?_, ?_, ?_⟩
  · rcases hattempt with h | h | h | h <;> rw [h] <;> decide
  · rcases hattempt with h | h | h | h <;> rw [h] <;> decide
  · intro h1
    constructor
    · simp [uploadToPastebin, h1]
    · simp [attemptedProviders, h1]
  · intro h1 h2
    constructor
    · simp [uploadToPastebin, h1, h2]
    · simp [attemptedProviders, h1, h2]
  · intro h1 h2 h3
    constructor
    · simp [uploadToPastebin, h1, h2, h3]
    · simp [attemptedProviders, h1, h2, h3]
  · intro h1 h2 h3 h4
    constructor
    · simp [uploadToPastebin, h1, h2, h3, h4]
    · simp [attemptedProviders, h1, h2, h3]
  · intro h1 h2 h3 h4
    have hupload : uploadToPastebin env =
        { success := false, error := some (pasteAggregateError env) } := by
      simp [uploadToPastebin, h1, h2, h3, h4, pasteAggregateError,
        pasteSubMsg1, pasteSubMsg2, pasteSubMsg3, pasteSubMsg4]
    rw [hupload]
    refine ⟨rfl, rfl, ?_, ?_, ?_, ?_⟩ <;>
      (unfold pasteAggregateError; rw [intercalate4])
    · exact strContains_append_right _ _ _ (strContains_append_left _ _ _
        (strContains_append_left _ _ _ (strContains_append_left _ _ _
          (strContains_append_left _ _ _ (strContains_append_left _ _ _
            (strContains_append_left _ _ _ (strContains_self _)))))))
    · exact strContains_append_right _ _ _ (strContains_append_left _ _ _
        (strContains_append_left _ _ _ (strContains_append_left _ _ _
          (strContains_append_left _ _ _ (strContains_append_right _ _ _
            (strContains_self _))))))
    · exact strContains_append_right _ _ _ (strContains_append_left _ _ _
        (strContains_append_left _ _ _ (strContains_append_right _ _ _
          (strContains_self _))))
    · exact strContains_append_right _ _ _ (strContains_append_right _ _ _
        (strContains_self _))

/-- C1 witness: with providers 1–2 failing and provider 3 succeeding, the
chain returns provider 3's URL having attempted exactly the first three. -/
theorem uploadToPastebin_chain_spec_witness :
    uploadToPastebin chainWitnessEnv =
      { success := true, url := some "https://0x0.st/abc", error := none } ∧
    attemptedProviders chainWitnessEnv = ["paste.rs", "dpaste.org", "0x0.st"] := by
  have h := (uploadToPastebin_chain_spec chainWitnessEnv).2.2.2.2.2.2.2.2.1
    (by decide) (by decide) (by decide)
  exact ⟨h.1.trans (by decide), h.2⟩
